import Mathlib

/-!
Verification of the Vanguard esports-scouting aggregation core.

This file shallowly embeds the statistical aggregation layer of the
repository — `analyzers.py` (the `LolAnalyzer` and `ValorantAnalyzer`
engines) and `mock_data.py` (the `MockDataGenerator`) — and proves the
specified properties about it.

Modelling conventions:
* Python dictionaries holding match records become Lean structures whose
  fields keep the source key names.
* Python `float` arithmetic is modelled as exact rational arithmetic (ℚ);
  Python `round(x, n)` is modelled as round-half-to-even on `x * 10^n`
  (`pyRound1`, `pyRound0` below), matching Python semantics on exact values.
* `collections.Counter` is modelled as an insertion-ordered association
  list (`Counter` below); `max(counter, key=counter.get)` is the first key
  of maximal count in insertion order, exactly as in CPython.
* Fallible operations (the `KeyError` reachable in
  `ValorantAnalyzer.calculate_site_bias`, `random.randint` on an empty
  range, `random.choice` of an empty list) return `Option`/`Except`.
* The process-wide pseudo-random source is modelled as a stream
  `g : ℕ → ℕ` together with a cursor; `random.random()` is the draw
  `mkRat (g i % 1000) 1000 ∈ [0, 1)`, and `random.randint lo hi` maps the
  draw into `[lo, hi]` by modular reduction.  Universally quantifying over
  `g` quantifies over every state of the random source.
* `datetime.now()` is an ambient-clock input, threaded as an integer
  parameter `now`; match dates are stored as integer day offsets from it.
* Python's stable `sorted(..., key=itemgetter-like)` is modelled by a
  stable structural insertion sort (`sortByTimestamp`); stable sorts agree
  on their output, so this is exact.
* Analyzer methods are translated in state-passing style
  `State → Result × State` so that (non-)mutation of the stored match list
  is part of the embedding: the Python bodies perform no attribute
  assignment, hence each embedded method returns its input state.
-/

/-! ## Python rounding, mean, and string-formatting helpers -/

/-- Round-half-to-even to an integer, as Python `round(x)` on exact values. -/
def pyRoundInt (q : ℚ) : ℤ :=
  if q - ⌊q⌋ < 1/2 then ⌊q⌋
  else if 1/2 < q - ⌊q⌋ then ⌊q⌋ + 1
  else if ⌊q⌋ % 2 = 0 then ⌊q⌋ else ⌊q⌋ + 1

/-- Python `round(x, 1)`. -/
def pyRound1 (q : ℚ) : ℚ := (pyRoundInt (q * 10) : ℚ) / 10

/-- Python `round(x, 0)`. -/
def pyRound0 (q : ℚ) : ℚ := (pyRoundInt q : ℚ)

/-- `numpy.mean` of a list of integers (the guarded, non-empty case). -/
def npMean (l : List ℤ) : ℚ := (l.sum : ℚ) / (l.length : ℚ)

/-- Python `int(x)`: truncation toward zero. -/
def ratTrunc (q : ℚ) : ℤ := if 0 ≤ q then ⌊q⌋ else -⌊-q⌋

/-- Fixed-point rendering of a non-negative integer number of tenths. -/
def tenthsToString (n : ℤ) : String :=
  toString (n / 10) ++ "." ++ toString (n % 10)

/-- Python format `\x7b:.1f\x7d` on an exact value. -/
def fmtFixed1 (q : ℚ) : String :=
  let r := pyRoundInt (q * 10)
  if r < 0 then "-" ++ tenthsToString (-r) else tenthsToString r

/-- Python format `\x7b:.0f\x7d` on an exact value. -/
def fmtFixed0 (q : ℚ) : String := toString (pyRoundInt q)

/-- Python format `\x7b:+d\x7d`: decimal with an explicit sign. -/
def fmtSignedInt (n : ℤ) : String :=
  if 0 ≤ n then "+" ++ toString n else toString n

/-! ## `collections.Counter`, insertion-ordered -/

/-- `collections.Counter` with string keys: an association list whose key
order is first-insertion order (CPython dicts preserve insertion order). -/
def Counter : Type := List (String × ℕ)

/-- `counter[k] += 1`: bump an existing key in place, else append it. -/
def cbump : Counter → String → Counter
  | [], k => [(k, 1)]
  | (a, n) :: rest, k =>
      if a = k then (a, n + 1) :: rest else (a, n) :: cbump rest k

/-- `counter.get(k, 0)`. -/
def cget : Counter → String → ℕ
  | [], _ => 0
  | (a, n) :: rest, k => if a = k then n else cget rest k

/-- `sum(counter.values())`. -/
def ctotal (c : Counter) : ℕ := (c.map (fun e => e.2)).sum

/-- `Counter(iterable)` for an iterable of strings. -/
def counterOf (l : List String) : Counter := l.foldl cbump []

/-- `max(counter, key=counter.get)`: the first key of maximal count in
iteration (= insertion) order; CPython `max` keeps the earliest maximum. -/
def cargmax : Counter → String
  | [] => ""
  | e :: rest => (rest.foldl (fun b x => if b.2 < x.2 then x else b) e).1

/-- Lookup in a literal `dict` of rationals; `none` models a `KeyError`. -/
def lookupQ : List (String × ℚ) → String → Option ℚ
  | [], _ => none
  | (a, v) :: rest, k => if a = k then some v else lookupQ rest k

/-! ## LoL match data model (`mock_data.py` / `analyzers.py` record shapes) -/

/-- One kill event of a LoL match. -/
structure KillEvent where
  timestamp : ℤ
  killer : String
  victim : String
  x : ℤ
  y : ℤ
  is_first_blood : Bool
deriving DecidableEq

/-- One dragon-capture event. -/
structure DragonEvent where
  timestamp : ℤ
  team : String
  dragon_type : String
  x : ℤ
  y : ℤ
deriving DecidableEq

/-- One baron- or herald-capture event. -/
structure ObjectiveEvent where
  timestamp : ℤ
  team : String
  x : ℤ
  y : ℤ
deriving DecidableEq

/-- One gold snapshot. -/
structure GoldUpdate where
  timestamp : ℤ
  team_gold : ℤ
  enemy_gold : ℤ
  gold_difference : ℤ
deriving DecidableEq

/-- One jungle-position sample. -/
structure JunglePosition where
  timestamp : ℤ
  x : ℤ
  y : ℤ
  lane : String
deriving DecidableEq

/-- A LoL match record (`date` is stored as an integer day offset from the
ambient clock, see the header). -/
structure LolMatch where
  match_id : String
  date : ℤ
  team : String
  opponent : String
  won : Bool
  duration : ℤ
  kills : List KillEvent
  dragons : List DragonEvent
  barons : List ObjectiveEvent
  heralds : List ObjectiveEvent
  gold_updates : List GoldUpdate
  jungle_positions : List JunglePosition
deriving DecidableEq

/-! ## VALORANT match data model -/

/-- Spike-plant coordinates. -/
structure SpikeCoords where
  x : ℤ
  y : ℤ
deriving DecidableEq

/-- First-blood coordinates. -/
structure FirstBloodLocation where
  x : ℤ
  y : ℤ
deriving DecidableEq

/-- One VALORANT round record. -/
structure ValRound where
  round_number : ℤ
  winner : String
  team_loadout_value : ℤ
  enemy_loadout_value : ℤ
  is_team_eco : Bool
  is_enemy_eco : Bool
  spike_planted : Bool
  spike_site : Option String
  spike_coords : Option SpikeCoords
  first_blood_team : String
  first_blood_location : FirstBloodLocation
  round_duration : ℤ
deriving DecidableEq

/-- A VALORANT match record. -/
structure ValMatch where
  match_id : String
  date : ℤ
  team : String
  opponent : String
  team_score : ℤ
  enemy_score : ℤ
  won : Bool
  map : String
  rounds : List ValRound
deriving DecidableEq

/-! ## `LolAnalyzer` (`analyzers.py`, lines 11–207) -/

/-- Heatmap payload of `calculate_jungle_proximity`. -/
structure HeatmapData where
  x : List ℤ
  y : List ℤ
  lane : List String

/-- Return value of `calculate_jungle_proximity`.  The two return paths of
the source build dictionaries with different key sets, so keys that appear
on only one path are `Option`-valued: `positions` appears only on the
empty-input path; `total_samples`, `heatmap_data` and `insight` only on the
non-empty path. -/
structure JungleProximity where
  top_lane_percent : ℚ
  mid_lane_percent : ℚ
  bot_lane_percent : ℚ
  positions : Option (List JunglePosition)
  total_samples : Option ℕ
  heatmap_data : Option HeatmapData
  insight : Option String

/-- Return value of `calculate_objective_control`. -/
structure ObjectiveControl where
  first_dragon_rate : ℚ
  overall_dragon_rate : ℚ
  herald_control_rate : ℚ
  baron_control_rate : ℚ
  total_dragons : ℕ
  team_dragons : ℕ
  total_heralds : ℕ
  team_heralds : ℕ
  total_barons : ℕ
  team_barons : ℕ
  insight : String

/-- Return value of `calculate_gold_efficiency`. -/
structure GoldEfficiency where
  gold_diff_at_10min : ℚ
  gold_diff_at_15min : ℚ
  gold_diff_at_20min : ℚ
  gold_growth_rate : ℚ
  samples_at_10 : ℕ
  samples_at_15 : ℕ
  samples_at_20 : ℕ
  insight : String

/-- The `LolAnalyzer` object state: the fields set by `__init__`. -/
structure LolAnalyzer where
  «matches» : List LolMatch
  team_name : String

/-- Return value of `LolAnalyzer.get_complete_analysis`. -/
structure LolComplete where
  team_name : String
  matches_analyzed : ℕ
  win_rate : ℚ
  avg_game_duration_minutes : ℚ
  jungle_proximity : JungleProximity
  objective_control : ObjectiveControl
  gold_efficiency : GoldEfficiency

namespace LolAnalyzer

/-- `LolAnalyzer.__init__`: stores the match list and derives the team name
from the first match, with the `"Unknown"` sentinel for an empty list. -/
def init (ms : List LolMatch) : LolAnalyzer :=
  { «matches» := ms
    team_name := match ms with
      | [] => "Unknown"
      | m :: _ => m.team }

/-- `calculate_jungle_proximity` (lines 27–70). -/
def calculate_jungle_proximity (a : LolAnalyzer) :
    JungleProximity × LolAnalyzer :=
  let all_positions :=
    a.«matches».foldl (fun acc m => acc ++ m.jungle_positions) []
  if all_positions.isEmpty then
    ({ top_lane_percent := 0
       mid_lane_percent := 0
       bot_lane_percent := 0
       positions := some []
       total_samples := none
       heatmap_data := none
       insight := none }, a)
  else
    let lane_counter := counterOf (all_positions.map (fun p => p.lane))
    let total := all_positions.length
    let top_percent : ℚ := ((cget lane_counter "Top" : ℚ) / (total : ℚ)) * 100
    let mid_percent : ℚ := ((cget lane_counter "Mid" : ℚ) / (total : ℚ)) * 100
    let bot_percent : ℚ := ((cget lane_counter "Bot" : ℚ) / (total : ℚ)) * 100
    let heatmap : HeatmapData :=
      { x := all_positions.map (fun p => p.x)
        y := all_positions.map (fun p => p.y)
        lane := all_positions.map (fun p => p.lane) }
    ({ top_lane_percent := pyRound1 top_percent
       mid_lane_percent := pyRound1 mid_percent
       bot_lane_percent := pyRound1 bot_percent
       positions := none
       total_samples := some total
       heatmap_data := some heatmap
       insight := some ("Jungler focuses "
         ++ fmtFixed1 (max top_percent (max mid_percent bot_percent))
         ++ "% on " ++ cargmax lane_counter ++ " lane") }, a)

/-- Accumulator of the first loop of `calculate_objective_control`. -/
structure ObjAcc where
  first_dragons : ℕ
  first_dragons_taken : ℕ
  total_dragons : ℕ
  team_dragons : ℕ
  total_heralds : ℕ
  team_heralds : ℕ

/-- Per-match body of the first loop of `calculate_objective_control`
(lines 88–107). -/
def objStep (tn : String) (acc : ObjAcc) (m : LolMatch) : ObjAcc :=
  let acc :=
    match m.dragons with
    | [] => acc
    | d0 :: _ =>
        { acc with
          first_dragons := acc.first_dragons + 1
          first_dragons_taken :=
            if d0.team = tn then acc.first_dragons_taken + 1
            else acc.first_dragons_taken }
  let acc := m.dragons.foldl (fun acc d =>
    { acc with
      total_dragons := acc.total_dragons + 1
      team_dragons :=
        if d.team = tn then acc.team_dragons + 1 else acc.team_dragons }) acc
  m.heralds.foldl (fun acc h =>
    { acc with
      total_heralds := acc.total_heralds + 1
      team_heralds :=
        if h.team = tn then acc.team_heralds + 1 else acc.team_heralds }) acc

/-- `calculate_objective_control` (lines 72–138). -/
def calculate_objective_control (a : LolAnalyzer) :
    ObjectiveControl × LolAnalyzer :=
  let acc := a.«matches».foldl (objStep a.team_name) ⟨0, 0, 0, 0, 0, 0⟩
  let first_dragon_rate : ℚ :=
    if 0 < acc.first_dragons then
      (acc.first_dragons_taken : ℚ) / (acc.first_dragons : ℚ) * 100
    else 0
  let overall_dragon_rate : ℚ :=
    if 0 < acc.total_dragons then
      (acc.team_dragons : ℚ) / (acc.total_dragons : ℚ) * 100
    else 0
  let herald_rate : ℚ :=
    if 0 < acc.total_heralds then
      (acc.team_heralds : ℚ) / (acc.total_heralds : ℚ) * 100
    else 0
  let bacc := a.«matches».foldl (fun (p : ℕ × ℕ) m =>
    m.barons.foldl (fun (p : ℕ × ℕ) b =>
      (p.1 + 1, if b.team = a.team_name then p.2 + 1 else p.2)) p) (0, 0)
  let baron_rate : ℚ :=
    if 0 < bacc.1 then (bacc.2 : ℚ) / (bacc.1 : ℚ) * 100 else 0
  ({ first_dragon_rate := pyRound1 first_dragon_rate
     overall_dragon_rate := pyRound1 overall_dragon_rate
     herald_control_rate := pyRound1 herald_rate
     baron_control_rate := pyRound1 baron_rate
     total_dragons := acc.total_dragons
     team_dragons := acc.team_dragons
     total_heralds := acc.total_heralds
     team_heralds := acc.team_heralds
     total_barons := bacc.1
     team_barons := bacc.2
     insight :=
       (if 70 < first_dragon_rate then "DOMINATES" else "STRUGGLES WITH")
       ++ " early objective control (" ++ fmtFixed0 first_dragon_rate
       ++ "% first dragon rate)" }, a)

/-- Per-update body of the bucketing loop of `calculate_gold_efficiency`
(lines 155–164): the `if/elif` chain appending to the three bucket lists. -/
def goldStep (acc : List ℤ × List ℤ × List ℤ) (u : GoldUpdate) :
    List ℤ × List ℤ × List ℤ :=
  if 9 * 60 ≤ u.timestamp ∧ u.timestamp ≤ 11 * 60 then
    (acc.1 ++ [u.gold_difference], acc.2.1, acc.2.2)
  else if 14 * 60 ≤ u.timestamp ∧ u.timestamp ≤ 16 * 60 then
    (acc.1, acc.2.1 ++ [u.gold_difference], acc.2.2)
  else if 19 * 60 ≤ u.timestamp ∧ u.timestamp ≤ 21 * 60 then
    (acc.1, acc.2.1, acc.2.2 ++ [u.gold_difference])
  else acc

/-- `calculate_gold_efficiency` (lines 140–184). -/
def calculate_gold_efficiency (a : LolAnalyzer) :
    GoldEfficiency × LolAnalyzer :=
  let b := a.«matches».foldl
    (fun acc m => m.gold_updates.foldl goldStep acc) ([], [], [])
  let gold_at_10 := b.1
  let gold_at_15 := b.2.1
  let gold_at_20 := b.2.2
  let avg_gold_10 : ℚ := if gold_at_10.isEmpty then 0 else npMean gold_at_10
  let avg_gold_15 : ℚ := if gold_at_15.isEmpty then 0 else npMean gold_at_15
  let avg_gold_20 : ℚ := if gold_at_20.isEmpty then 0 else npMean gold_at_20
  let growth_rate : ℚ :=
    if avg_gold_10 ≠ 0 ∧ avg_gold_15 ≠ 0 then
      ((avg_gold_15 - avg_gold_10) / 5) * 60
    else 0
  ({ gold_diff_at_10min := pyRound0 avg_gold_10
     gold_diff_at_15min := pyRound0 avg_gold_15
     gold_diff_at_20min := pyRound0 avg_gold_20
     gold_growth_rate := pyRound0 growth_rate
     samples_at_10 := gold_at_10.length
     samples_at_15 := gold_at_15.length
     samples_at_20 := gold_at_20.length
     insight := (if 0 < avg_gold_15 then "Strong" else "Weak")
       ++ " mid-game scaling (" ++ fmtSignedInt (ratTrunc avg_gold_15)
       ++ "g @ 15min)" }, a)

/-- `get_complete_analysis` (lines 186–207). -/
def get_complete_analysis (a : LolAnalyzer) : LolComplete × LolAnalyzer :=
  let wins := a.«matches».countP (fun m => m.won)
  let total_matches := a.«matches».length
  let win_rate : ℚ :=
    if 0 < total_matches then (wins : ℚ) / (total_matches : ℚ) * 100 else 0
  let avg_game_duration : ℚ :=
    if a.«matches».isEmpty then 0
    else npMean (a.«matches».map (fun m => m.duration))
  let ja := calculate_jungle_proximity a
  let oa := calculate_objective_control ja.2
  let ga := calculate_gold_efficiency oa.2
  ({ team_name := a.team_name
     matches_analyzed := total_matches
     win_rate := pyRound1 win_rate
     avg_game_duration_minutes := pyRound1 (avg_game_duration / 60)
     jungle_proximity := ja.1
     objective_control := oa.1
     gold_efficiency := ga.1 }, ga.2)

end LolAnalyzer

/-! ## `ValorantAnalyzer` (`analyzers.py`, lines 210–389) -/

/-- Return value of `calculate_opening_duel_winrate`. -/
structure OpeningDuel where
  first_blood_rate : ℚ
  first_blood_conversion : ℚ
  rounds_with_first_blood : ℕ
  rounds_won_with_fb : ℕ
  rounds_won_without_fb : ℕ
  total_rounds : ℕ
  insight : String

/-- Return value of `calculate_site_bias` (when no `KeyError` is raised). -/
structure SiteBias where
  site_A_percent : ℚ
  site_B_percent : ℚ
  site_C_percent : ℚ
  site_A_winrate : ℚ
  site_B_winrate : ℚ
  site_C_winrate : ℚ
  total_spike_plants : ℕ
  favorite_site : String
  favorite_site_attacks : ℕ
  site_attack_distribution : Counter
  insight : String

/-- Return value of `calculate_eco_conversion`. -/
structure EcoConversion where
  eco_conversion_rate : ℚ
  eco_rounds_played : ℕ
  eco_rounds_won : ℕ
  force_buy_winrate : ℚ
  force_rounds_played : ℕ
  full_buy_winrate : ℚ
  full_buy_rounds_played : ℕ
  insight : String

/-- The `ValorantAnalyzer` object state: the fields set by `__init__`. -/
structure ValorantAnalyzer where
  «matches» : List ValMatch
  team_name : String

/-- Return value of `ValorantAnalyzer.get_complete_analysis`. -/
structure ValComplete where
  team_name : String
  matches_analyzed : ℕ
  match_win_rate : ℚ
  round_win_rate : ℚ
  total_rounds_played : ℕ
  opening_duel_stats : OpeningDuel
  site_bias_stats : SiteBias
  economy_stats : EcoConversion

namespace ValorantAnalyzer

/-- `ValorantAnalyzer.__init__`: stores the match list and derives the team
name from the first match, with the `"Unknown"` sentinel for an empty list. -/
def init (ms : List ValMatch) : ValorantAnalyzer :=
  { «matches» := ms
    team_name := match ms with
      | [] => "Unknown"
      | m :: _ => m.team }

/-- Accumulator of the loop of `calculate_opening_duel_winrate`. -/
structure FbAcc where
  total_rounds : ℕ
  team_first_bloods : ℕ
  rounds_won_with_fb : ℕ
  rounds_won_without_fb : ℕ

/-- Per-round body of the loop of `calculate_opening_duel_winrate`
(lines 239–251). -/
def fbStep (tn : String) (acc : FbAcc) (r : ValRound) : FbAcc :=
  let acc := { acc with total_rounds := acc.total_rounds + 1 }
  let got_first_blood := r.first_blood_team = tn
  let won_round := r.winner = tn
  if got_first_blood then
    { acc with
      team_first_bloods := acc.team_first_bloods + 1
      rounds_won_with_fb :=
        if won_round then acc.rounds_won_with_fb + 1
        else acc.rounds_won_with_fb }
  else
    { acc with
      rounds_won_without_fb :=
        if won_round then acc.rounds_won_without_fb + 1
        else acc.rounds_won_without_fb }

/-- `calculate_opening_duel_winrate` (lines 226–264). -/
def calculate_opening_duel_winrate (a : ValorantAnalyzer) :
    OpeningDuel × ValorantAnalyzer :=
  let acc := a.«matches».foldl
    (fun acc m => m.rounds.foldl (fbStep a.team_name) acc) ⟨0, 0, 0, 0⟩
  let fb_rate : ℚ :=
    if 0 < acc.total_rounds then
      (acc.team_first_bloods : ℚ) / (acc.total_rounds : ℚ) * 100
    else 0
  let fb_conversion : ℚ :=
    if 0 < acc.team_first_bloods then
      (acc.rounds_won_with_fb : ℚ) / (acc.team_first_bloods : ℚ) * 100
    else 0
  ({ first_blood_rate := pyRound1 fb_rate
     first_blood_conversion := pyRound1 fb_conversion
     rounds_with_first_blood := acc.team_first_bloods
     rounds_won_with_fb := acc.rounds_won_with_fb
     rounds_won_without_fb := acc.rounds_won_without_fb
     total_rounds := acc.total_rounds
     insight := (if 55 < fb_rate then "ELITE" else "AVERAGE")
       ++ " opening duelist (" ++ fmtFixed1 fb_rate ++ "% FB rate, "
       ++ fmtFixed1 fb_conversion ++ "% conversion)" }, a)

/-- Per-round body of the counting loop of `calculate_site_bias`
(lines 276–284); the pair holds `(site_attacks, site_wins)`.  The Python
truthiness test `if spike_site:` is modelled as presence of the optional
site label (site labels are non-empty strings). -/
def siteStep (tn : String) (acc : Counter × Counter) (r : ValRound) :
    Counter × Counter :=
  match r.spike_site with
  | none => acc
  | some spike_site =>
      (cbump acc.1 spike_site,
       if r.winner = tn then cbump acc.2 spike_site else acc.2)

/-- `calculate_site_bias` (lines 266–309).  The returned value is `none`
when the final insight f-string raises `KeyError`: the lookup
`site_percentages[f"site_.._percent"]` is keyed by `favorite_site`, which is
the sentinel `"Unknown"` whenever no round has a plant. -/
def calculate_site_bias (a : ValorantAnalyzer) :
    Option SiteBias × ValorantAnalyzer :=
  let sc := a.«matches».foldl
    (fun acc m => m.rounds.foldl (siteStep a.team_name) acc) ([], [])
  let site_attacks := sc.1
  let site_wins := sc.2
  let total_attacks := ctotal site_attacks
  let pA : ℚ := if 0 < total_attacks then
      pyRound1 ((cget site_attacks "A" : ℚ) / (total_attacks : ℚ) * 100) else 0
  let pB : ℚ := if 0 < total_attacks then
      pyRound1 ((cget site_attacks "B" : ℚ) / (total_attacks : ℚ) * 100) else 0
  let pC : ℚ := if 0 < total_attacks then
      pyRound1 ((cget site_attacks "C" : ℚ) / (total_attacks : ℚ) * 100) else 0
  let wA : ℚ := if 0 < cget site_attacks "A" then
      pyRound1 ((cget site_wins "A" : ℚ) / (cget site_attacks "A" : ℚ) * 100)
    else 0
  let wB : ℚ := if 0 < cget site_attacks "B" then
      pyRound1 ((cget site_wins "B" : ℚ) / (cget site_attacks "B" : ℚ) * 100)
    else 0
  let wC : ℚ := if 0 < cget site_attacks "C" then
      pyRound1 ((cget site_wins "C" : ℚ) / (cget site_attacks "C" : ℚ) * 100)
    else 0
  let site_percentages : List (String × ℚ) :=
    [("site_A_percent", pA), ("site_B_percent", pB), ("site_C_percent", pC)]
  let favorite_site :=
    if site_attacks.isEmpty then "Unknown" else cargmax site_attacks
  match lookupQ site_percentages ("site_" ++ favorite_site ++ "_percent") with
  | none => (none, a)
  | some fav_percent =>
      (some { site_A_percent := pA
              site_B_percent := pB
              site_C_percent := pC
              site_A_winrate := wA
              site_B_winrate := wB
              site_C_winrate := wC
              total_spike_plants := total_attacks
              favorite_site := favorite_site
              favorite_site_attacks := cget site_attacks favorite_site
              site_attack_distribution := site_attacks
              insight := "HEAVILY favors " ++ favorite_site ++ "-Site ("
                ++ fmtFixed0 fav_percent ++ "% of attacks)" }, a)

/-- Accumulator of the loop of `calculate_eco_conversion`. -/
structure EcoAcc where
  eco_rounds : ℕ
  eco_wins : ℕ
  force_rounds : ℕ
  force_wins : ℕ
  full_buy_rounds : ℕ
  full_buy_wins : ℕ

/-- Per-round body of the loop of `calculate_eco_conversion`
(lines 328–345). -/
def ecoStep (tn : String) (acc : EcoAcc) (r : ValRound) : EcoAcc :=
  let team_loadout := r.team_loadout_value
  let won_round := r.winner = tn
  if team_loadout < 2000 then
    { acc with
      eco_rounds := acc.eco_rounds + 1
      eco_wins := if won_round then acc.eco_wins + 1 else acc.eco_wins }
  else if 2000 ≤ team_loadout ∧ team_loadout < 3500 then
    { acc with
      force_rounds := acc.force_rounds + 1
      force_wins := if won_round then acc.force_wins + 1 else acc.force_wins }
  else
    { acc with
      full_buy_rounds := acc.full_buy_rounds + 1
      full_buy_wins :=
        if won_round then acc.full_buy_wins + 1 else acc.full_buy_wins }

/-- `calculate_eco_conversion` (lines 311–360). -/
def calculate_eco_conversion (a : ValorantAnalyzer) :
    EcoConversion × ValorantAnalyzer :=
  let acc := a.«matches».foldl
    (fun acc m => m.rounds.foldl (ecoStep a.team_name) acc) ⟨0, 0, 0, 0, 0, 0⟩
  let eco_conversion_rate : ℚ :=
    if 0 < acc.eco_rounds then
      (acc.eco_wins : ℚ) / (acc.eco_rounds : ℚ) * 100
    else 0
  let force_winrate : ℚ :=
    if 0 < acc.force_rounds then
      (acc.force_wins : ℚ) / (acc.force_rounds : ℚ) * 100
    else 0
  let full_buy_winrate : ℚ :=
    if 0 < acc.full_buy_rounds then
      (acc.full_buy_wins : ℚ) / (acc.full_buy_rounds : ℚ) * 100
    else 0
  ({ eco_conversion_rate := pyRound1 eco_conversion_rate
     eco_rounds_played := acc.eco_rounds
     eco_rounds_won := acc.eco_wins
     force_buy_winrate := pyRound1 force_winrate
     force_rounds_played := acc.force_rounds
     full_buy_winrate := pyRound1 full_buy_winrate
     full_buy_rounds_played := acc.full_buy_rounds
     insight := (if 20 < eco_conversion_rate then "DANGEROUS" else "PREDICTABLE")
       ++ " on eco rounds (" ++ fmtFixed1 eco_conversion_rate
       ++ "% win rate)" }, a)

/-- `get_complete_analysis` (lines 362–389).  The result is `none` when
`calculate_site_bias` raises; the raise happens after
`calculate_opening_duel_winrate` and before `calculate_eco_conversion`,
which in a pure embedding only affects the overall result. -/
def get_complete_analysis (a : ValorantAnalyzer) :
    Option ValComplete × ValorantAnalyzer :=
  let total_matches := a.«matches».length
  let wins := a.«matches».countP (fun m => m.won)
  let win_rate : ℚ :=
    if 0 < total_matches then (wins : ℚ) / (total_matches : ℚ) * 100 else 0
  let total_rounds : ℕ := (a.«matches».map (fun m => m.rounds.length)).sum
  let team_rounds_won : ℕ :=
    (a.«matches».map (fun m =>
      m.rounds.countP (fun r => r.winner = a.team_name))).sum
  let round_win_rate : ℚ :=
    if 0 < total_rounds then
      (team_rounds_won : ℚ) / (total_rounds : ℚ) * 100
    else 0
  let oa := calculate_opening_duel_winrate a
  let sa := calculate_site_bias oa.2
  match sa.1 with
  | none => (none, sa.2)
  | some sb =>
      let ea := calculate_eco_conversion sa.2
      (some { team_name := a.team_name
              matches_analyzed := total_matches
              match_win_rate := pyRound1 win_rate
              round_win_rate := pyRound1 round_win_rate
              total_rounds_played := total_rounds
              opening_duel_stats := oa.1
              site_bias_stats := sb
              economy_stats := ea.1 }, ea.2)

end ValorantAnalyzer

/-! ## The random-source model and `MockDataGenerator` (`mock_data.py`) -/

/-- A computation consuming draws from the process-wide random source,
modelled as a stream `g : ℕ → ℕ` with a cursor; `Except` carries the
exceptions `random.randint`/`random.choice` can raise. -/
abbrev GenM (α : Type) := (ℕ → ℕ) → ℕ → Except String (α × ℕ)

/-- Return without consuming randomness. -/
def gpure {α : Type} (a : α) : GenM α := fun _ i => .ok (a, i)

/-- Sequencing of random computations. -/
def gbind {α β : Type} (m : GenM α) (f : α → GenM β) : GenM β := fun g i =>
  match m g i with
  | .ok (a, j) => f a g j
  | .error e => .error e

/-- `random.randint(lo, hi)`: uniform on the closed interval `[lo, hi]`;
raises `ValueError` when the range is empty. -/
def randint (lo hi : ℤ) : GenM ℤ := fun g i =>
  if lo ≤ hi then .ok (lo + (g i : ℤ) % (hi - lo + 1), i + 1)
  else .error "empty range for randint"

/-- `random.random()`: a draw in `[0, 1)`, modelled on a 1/1000 grid (every
comparison made against it in the source distinguishes thresholds that are
multiples of 1/100, so every branch behaviour of the source is preserved). -/
def randomFloat : GenM ℚ := fun g i =>
  .ok (mkRat ((g i % 1000 : ℕ) : ℤ) 1000, i + 1)

/-- `random.choice(seq)`: raises `IndexError` on an empty sequence. -/
def randomChoice {α : Type} (l : List α) : GenM α := fun g i =>
  match l with
  | [] => .error "empty sequence for choice"
  | a :: as =>
      .ok ((a :: as).get ⟨g i % (a :: as).length,
        Nat.mod_lt _ (Nat.succ_pos _)⟩, i + 1)

/-- `for k in range(start, start + count)` collecting one generated value
per iteration (the loop index is passed to the body). -/
def greplicateIdx {α : Type} (f : ℕ → GenM α) : ℕ → ℕ → GenM (List α)
  | _, 0 => gpure []
  | start, Nat.succ c =>
      gbind (f start) fun a =>
      gbind (greplicateIdx f (start + 1) c) fun rest =>
      gpure (a :: rest)

/-- A `for` loop over a list collecting one generated value per element. -/
def gmapM {α β : Type} (f : β → GenM α) : List β → GenM (List α)
  | [] => gpure []
  | b :: bs =>
      gbind (f b) fun a =>
      gbind (gmapM f bs) fun rest =>
      gpure (a :: rest)

/-- A `for` loop over a list whose body appends a value only on some
iterations. -/
def gfilterMapM {α β : Type} (f : β → GenM (Option α)) :
    List β → GenM (List α)
  | [] => gpure []
  | b :: bs =>
      gbind (f b) fun oa =>
      gbind (gfilterMapM f bs) fun rest =>
      gpure (match oa with | some a => a :: rest | none => rest)

/-- Stable insertion of an element into a timestamp-sorted list. -/
def insertByTs {α : Type} (ts : α → ℤ) (a : α) : List α → List α
  | [] => [a]
  | b :: bs => if ts a ≤ ts b then a :: b :: bs else b :: insertByTs ts a bs

/-- Python `sorted(events, key=lambda e: e["timestamp"])`, modelled as a
stable structural insertion sort (stable sorts have a unique output, so
this agrees with CPython's sort exactly). -/
def sortByTimestamp {α : Type} (ts : α → ℤ) (l : List α) : List α :=
  l.foldr (insertByTs ts) []

/-- Python `range(lo, hi, step)` for a positive step. -/
def pyRangeStep (lo hi step : ℤ) : List ℤ :=
  (List.range ((hi - lo + (step - 1)) / step).toNat).map
    (fun (k : ℕ) => lo + step * ((k : ℕ) : ℤ))

namespace MockDataGenerator

/-- `LOL_MAP_SIZE` (line 14). -/
def LOL_MAP_SIZE : ℤ := 14820

/-- One iteration of the kill loop (`mock_data.py`, lines 40–49). -/
def genKill (team_name : String) (game_duration : ℤ) (k : ℕ) :
    GenM KillEvent :=
  gbind (randint 180 game_duration) fun timestamp =>
  gbind (randint 1000 (LOL_MAP_SIZE - 1000)) fun x =>
  gbind (randint 1000 (LOL_MAP_SIZE - 1000)) fun y =>
  gpure { timestamp := timestamp
          killer := team_name
          victim := "Enemy Team"
          x := x
          y := y
          is_first_blood := k = 0 }

/-- The dragon spawn schedule (line 53). -/
def dragon_spawn_times : List ℤ :=
  [300, 600, 900, 1200, 1500, 1800, 2100, 2400]

/-- One iteration of the dragon loop (lines 56–65): the spawn is skipped
unless it happens before the game ends and an 80% gate passes. -/
def genDragon (team_name : String) (won : Bool) (game_duration : ℤ)
    (spawn_time : ℤ) : GenM (Option DragonEvent) :=
  if spawn_time < game_duration then
    gbind randomFloat fun gate =>
    if gate < mkRat 8 10 then
      gbind randomFloat fun r =>
      let taken_by_team := r < (if won then mkRat 75 100 else mkRat 35 100)
      gbind (randint 0 120) fun delay =>
      gbind (randomChoice ["Cloud", "Infernal", "Ocean", "Mountain", "Elder"])
        fun dragon_type =>
      gpure (some { timestamp := spawn_time + delay
                    team := if taken_by_team then team_name else "Enemy Team"
                    dragon_type := dragon_type
                    x := 9800
                    y := 4200 })
    else gpure none
  else gpure none

/-- One iteration of the baron loop (lines 73–81). -/
def genBaron (team_name : String) (won : Bool) (game_duration : ℤ) (_b : ℕ) :
    GenM ObjectiveEvent :=
  gbind (randint 1200 (game_duration - 60)) fun timestamp =>
  gbind randomFloat fun r =>
  let taken_by_team := r < (if won then mkRat 8 10 else mkRat 2 10)
  gpure { timestamp := timestamp
          team := if taken_by_team then team_name else "Enemy Team"
          x := 5200
          y := 10400 }

/-- One iteration of the herald loop (lines 89–97). -/
def genHerald (team_name : String) (won : Bool) (game_duration : ℤ) (_h : ℕ) :
    GenM ObjectiveEvent :=
  gbind (randint 480 (min 1185 game_duration)) fun timestamp =>
  gbind randomFloat fun r =>
  let taken_by_team := r < (if won then mkRat 7 10 else mkRat 3 10)
  gpure { timestamp := timestamp
          team := if taken_by_team then team_name else "Enemy Team"
          x := 5200
          y := 10400 }

/-- One iteration of the gold-update loop (lines 103–111). -/
def genGoldUpdate (won : Bool) (minute : ℤ) : GenM GoldUpdate :=
  gbind (randint (-300) 300) fun variance =>
  let base_gold_advantage : ℤ := if won then 500 else -500
  let gold_diff := base_gold_advantage + variance + minute * 50
  gpure { timestamp := minute * 60
          team_gold := 15000 + minute * 300 + gold_diff
          enemy_gold := 15000 + minute * 300
          gold_difference := gold_diff }

/-- One iteration of the jungle-position loop (lines 117–140). -/
def genJunglePosition (game_duration : ℤ) (_s : ℕ) : GenM JunglePosition :=
  gbind (randint 0 game_duration) fun timestamp =>
  gbind randomFloat fun lane_bias =>
  if lane_bias < mkRat 35 100 then
    gbind (randint 1000 7000) fun x =>
    gbind (randint 10000 14000) fun y =>
    gpure { timestamp := timestamp, x := x, y := y, lane := "Top" }
  else if lane_bias < mkRat 70 100 then
    gbind (randint 5000 10000) fun x =>
    gbind (randint 5000 10000) fun y =>
    gpure { timestamp := timestamp, x := x, y := y, lane := "Mid" }
  else
    gbind (randint 8000 14000) fun x =>
    gbind (randint 1000 5000) fun y =>
    gpure { timestamp := timestamp, x := x, y := y, lane := "Bot" }

/-- One iteration of the match loop of `generate_lol_match_data`
(lines 29–157), in the source's draw order. -/
def genLolMatch (team_name : String) (now : ℤ) (match_id : ℕ) :
    GenM LolMatch :=
  gbind randomFloat fun wr =>
  let won := wr < mkRat 7 10
  gbind (randint 1500 2400) fun game_duration =>
  gbind (if won then randint 15 35 else randint 8 20) fun num_kills =>
  gbind (greplicateIdx (genKill team_name game_duration) 0 num_kills.toNat)
    fun kills =>
  gbind (gfilterMapM (genDragon team_name won game_duration)
    dragon_spawn_times) fun dragons =>
  gbind (if 1200 < game_duration then
           gbind (randint 0 2) fun num_barons =>
           greplicateIdx (genBaron team_name won game_duration) 0
             num_barons.toNat
         else gpure []) fun barons =>
  gbind (if 480 < game_duration then
           gbind (randint 0 2) fun num_heralds =>
           greplicateIdx (genHerald team_name won game_duration) 0
             num_heralds.toNat
         else gpure []) fun heralds =>
  gbind (gmapM (genGoldUpdate won)
    (pyRangeStep 5 (game_duration / 60 + 1) 5)) fun gold_updates =>
  gbind (randint 100 200) fun num_position_samples =>
  gbind (greplicateIdx (genJunglePosition game_duration) 0
    num_position_samples.toNat) fun jungle_positions =>
  gpure { match_id := "LOL_" ++ toString match_id
          date := now - 3 * (match_id : ℤ)
          team := team_name
          opponent := "Team_" ++ toString match_id
          won := won
          duration := game_duration
          kills := sortByTimestamp (fun k => k.timestamp) kills
          dragons := sortByTimestamp (fun d => d.timestamp) dragons
          barons := sortByTimestamp (fun b => b.timestamp) barons
          heralds := sortByTimestamp (fun h => h.timestamp) heralds
          gold_updates := sortByTimestamp (fun u => u.timestamp) gold_updates
          jungle_positions :=
            sortByTimestamp (fun j => j.timestamp) jungle_positions }

/-- `generate_lol_match_data` (lines 19–159): `num_matches` iterations of
the match loop (`range(1, num_matches + 1)` is empty when
`num_matches ≤ 0`). -/
def generate_lol_match_data (team_name : String) (now : ℤ)
    (num_matches : ℤ) : GenM (List LolMatch) :=
  greplicateIdx (genLolMatch team_name now) 1 num_matches.toNat

/-- One iteration of the round loop of `generate_valorant_match_data`
(lines 184–246), in the source's draw order. -/
def genValRound (team_name : String) (team_rounds_won total_rounds : ℤ)
    (round_num : ℕ) : GenM ValRound :=
  gbind randomFloat fun rw =>
  let round_won := rw < Rat.divInt team_rounds_won total_rounds
  gbind (if round_num = 1 ∨ round_num = 13 then gpure ((800 : ℤ), (800 : ℤ))
         else
           gbind (randint 800 1500) fun e1 =>
           gbind (randint 2000 3000) fun e2 =>
           gbind (randint 3500 5000) fun e3 =>
           gbind (randomChoice [e1, e2, e3]) fun team_loadout =>
           gbind (randint 800 1500) fun f1 =>
           gbind (randint 2000 3000) fun f2 =>
           gbind (randint 3500 5000) fun f3 =>
           gbind (randomChoice [f1, f2, f3]) fun enemy_loadout =>
           gpure (team_loadout, enemy_loadout)) fun loadouts =>
  let team_loadout_value := loadouts.1
  let enemy_loadout_value := loadouts.2
  gbind randomFloat fun ps =>
  let spike_planted := ps < mkRat 85 100
  gbind (if spike_planted then
           gbind (randomChoice ["A", "B", "C"]) fun s => gpure (some s)
         else gpure none) fun spike_site =>
  gbind (if spike_planted then
           if spike_site = some "A" then
             gbind (randint 20 35) fun cx =>
             gbind (randint 40 55) fun cy =>
             gpure (some (SpikeCoords.mk cx cy))
           else if spike_site = some "B" then
             gbind (randint 55 70) fun cx =>
             gbind (randint 20 35) fun cy =>
             gpure (some (SpikeCoords.mk cx cy))
           else
             gbind (randint 40 55) fun cx =>
             gbind (randint 60 75) fun cy =>
             gpure (some (SpikeCoords.mk cx cy))
         else gpure none) fun spike_coords =>
  gbind (randomChoice [team_name, "Enemy Team"]) fun first_blood_team =>
  gbind (randint 10 90) fun fx =>
  gbind (randint 10 90) fun fy =>
  gbind (randint 30 100) fun round_duration =>
  gpure { round_number := (round_num : ℤ)
          winner := if round_won then team_name else "Enemy Team"
          team_loadout_value := team_loadout_value
          enemy_loadout_value := enemy_loadout_value
          is_team_eco := team_loadout_value < 2000
          is_enemy_eco := enemy_loadout_value < 2000
          spike_planted := spike_planted
          spike_site := spike_site
          spike_coords := spike_coords
          first_blood_team := first_blood_team
          first_blood_location := { x := fx, y := fy }
          round_duration := round_duration }

/-- One iteration of the match loop of `generate_valorant_match_data`
(lines 171–260), in the source's draw order. -/
def genValMatch (team_name : String) (now : ℤ) (match_id : ℕ) :
    GenM ValMatch :=
  gbind randomFloat fun wr =>
  gbind (if wr < mkRat 7 10 then randint 13 15 else randint 8 12)
    fun team_rounds_won =>
  gbind (if team_rounds_won < 13 then gpure (13 : ℤ) else randint 8 12)
    fun enemy_rounds_won =>
  let total_rounds := team_rounds_won + enemy_rounds_won
  let won := enemy_rounds_won < team_rounds_won
  gbind (greplicateIdx (genValRound team_name team_rounds_won total_rounds) 1
    total_rounds.toNat) fun rounds =>
  gbind (randomChoice
    ["Ascent", "Bind", "Haven", "Split", "Icebox", "Breeze", "Fracture"])
    fun map_name =>
  gpure { match_id := "VAL_" ++ toString match_id
          date := now - 2 * (match_id : ℤ)
          team := team_name
          opponent := "Team_" ++ toString match_id
          team_score := team_rounds_won
          enemy_score := enemy_rounds_won
          won := won
          map := map_name
          rounds := rounds }

/-- `generate_valorant_match_data` (lines 161–262). -/
def generate_valorant_match_data (team_name : String) (now : ℤ)
    (num_matches : ℤ) : GenM (List ValMatch) :=
  greplicateIdx (genValMatch team_name now) 1 num_matches.toNat

end MockDataGenerator

/-! ## Spec-side declarative definitions

These restate, in the specification's own words, the quantities the claims
compare the embedded code against; they are deliberately written as direct
count/filter formulas over the flattened match data rather than as loops. -/

/-- All jungle-position samples of a match list, in match order. -/
def allJunglePositions (ms : List LolMatch) : List JunglePosition :=
  ms.flatMap (fun m => m.jungle_positions)

/-- All rounds of a VALORANT match list, in match order. -/
def allValRounds (ms : List ValMatch) : List ValRound :=
  ms.flatMap (fun m => m.rounds)

/-- Whether a match has at least one dragon event. -/
def hasDragon (m : LolMatch) : Bool := !m.dragons.isEmpty

/-- Whether the chronologically-first dragon event of a match (the first
element of the pre-sorted dragon list) is credited to `tn`. -/
def firstDragonToTeam (tn : String) (m : LolMatch) : Bool :=
  match m.dragons with
  | [] => false
  | d :: _ => decide (d.team = tn)

/-- Spec formula: first-dragon rate = matches with the analyzed team's
first dragon / matches with any dragon × 100 (0 without dragons), as
reported (rounded to one decimal). -/
def specFirstDragonRate (ms : List LolMatch) (tn : String) : ℚ :=
  let withAny := ms.countP hasDragon
  if 0 < withAny then
    pyRound1 ((ms.countP (firstDragonToTeam tn) : ℚ) / (withAny : ℚ) * 100)
  else 0

/-- Spec formula: first-blood rate = team first bloods / total rounds × 100
(0 without rounds), as reported (rounded to one decimal). -/
def specFirstBloodRate (ms : List ValMatch) (tn : String) : ℚ :=
  let rs := allValRounds ms
  if 0 < rs.length then
    pyRound1 ((rs.countP (fun r => decide (r.first_blood_team = tn)) : ℚ)
      / (rs.length : ℚ) * 100)
  else 0

/-- Spec formula: first-blood conversion = rounds won among team-first-blood
rounds / team-first-blood rounds × 100 (0 without team first bloods), as
reported (rounded to one decimal). -/
def specFirstBloodConversion (ms : List ValMatch) (tn : String) : ℚ :=
  let rs := allValRounds ms
  let fb := rs.countP (fun r => decide (r.first_blood_team = tn))
  if 0 < fb then
    pyRound1 ((rs.countP (fun r =>
      decide (r.first_blood_team = tn) && decide (r.winner = tn)) : ℚ)
      / (fb : ℚ) * 100)
  else 0

/-- Spec classification: an eco round (team loadout < 2000). -/
def specEcoPred (r : ValRound) : Bool := decide (r.team_loadout_value < 2000)

/-- Spec classification: a force-buy round (2000 ≤ loadout < 3500). -/
def specForcePred (r : ValRound) : Bool :=
  decide (2000 ≤ r.team_loadout_value) && decide (r.team_loadout_value < 3500)

/-- Spec classification: a full-buy round (loadout ≥ 3500). -/
def specFullBuyPred (r : ValRound) : Bool :=
  decide (3500 ≤ r.team_loadout_value)

/-- Spec formula: win rate within a bucket of rounds = bucket wins / bucket
rounds × 100, 0 for an empty bucket, as reported (rounded to one decimal). -/
def specBucketWinrate (rs : List ValRound) (p : ValRound → Bool)
    (tn : String) : ℚ :=
  let n := rs.countP p
  if 0 < n then
    pyRound1 ((rs.countP (fun r => p r && decide (r.winner = tn)) : ℚ)
      / (n : ℚ) * 100)
  else 0

/-- The 10-minute gold bucket: differentials of snapshots timestamped within
one minute of 10:00, across all matches. -/
def specGoldAt10 (ms : List LolMatch) : List ℤ :=
  ((ms.flatMap (fun m => m.gold_updates)).filter
    (fun u => decide (9 * 60 ≤ u.timestamp) && decide (u.timestamp ≤ 11 * 60))).map
    (fun u => u.gold_difference)

/-- The 15-minute gold bucket. -/
def specGoldAt15 (ms : List LolMatch) : List ℤ :=
  ((ms.flatMap (fun m => m.gold_updates)).filter
    (fun u => decide (14 * 60 ≤ u.timestamp) && decide (u.timestamp ≤ 16 * 60))).map
    (fun u => u.gold_difference)

/-- The 20-minute gold bucket. -/
def specGoldAt20 (ms : List LolMatch) : List ℤ :=
  ((ms.flatMap (fun m => m.gold_updates)).filter
    (fun u => decide (19 * 60 ≤ u.timestamp) && decide (u.timestamp ≤ 21 * 60))).map
    (fun u => u.gold_difference)

/-- Average of the 10-minute gold bucket (0 when empty). -/
def specAvgGold10 (ms : List LolMatch) : ℚ :=
  if (specGoldAt10 ms).isEmpty then 0 else npMean (specGoldAt10 ms)

/-- Average of the 15-minute gold bucket (0 when empty). -/
def specAvgGold15 (ms : List LolMatch) : ℚ :=
  if (specGoldAt15 ms).isEmpty then 0 else npMean (specGoldAt15 ms)

/-- The growth rate exactly as claim C3 states it: the two-point finite
difference `(avg_at_15 - avg_at_10) / 5`, reported as 0 whenever either
bucket average is 0, rounded to zero decimals. -/
def claimGoldGrowthRate (ms : List LolMatch) : ℚ :=
  if specAvgGold10 ms ≠ 0 ∧ specAvgGold15 ms ≠ 0 then
    pyRound0 ((specAvgGold15 ms - specAvgGold10 ms) / 5)
  else 0

/-- The growth rate the source actually computes: the same finite difference
additionally multiplied by 60 (line 173 of `analyzers.py`), with the same
zero guard and rounding. -/
def codeGoldGrowthRate (ms : List LolMatch) : ℚ :=
  if specAvgGold10 ms ≠ 0 ∧ specAvgGold15 ms ≠ 0 then
    pyRound0 (((specAvgGold15 ms - specAvgGold10 ms) / 5) * 60)
  else 0

/-! ## Timestamp-range checkers for the generator (claim C2) -/

/-- Decidable check of the (amended) per-match timestamp invariant: kills,
barons, heralds, gold snapshots and jungle samples are timestamped within
`[0, duration]`; dragon captures within `[0, duration + 120)`. -/
def lolMatchEventsOk (m : LolMatch) : Bool :=
  m.kills.all (fun k =>
    decide (0 ≤ k.timestamp) && decide (k.timestamp ≤ m.duration)) &&
  m.dragons.all (fun d =>
    decide (0 ≤ d.timestamp) && decide (d.timestamp < m.duration + 120)) &&
  m.barons.all (fun b =>
    decide (0 ≤ b.timestamp) && decide (b.timestamp ≤ m.duration)) &&
  m.heralds.all (fun h =>
    decide (0 ≤ h.timestamp) && decide (h.timestamp ≤ m.duration)) &&
  m.gold_updates.all (fun u =>
    decide (0 ≤ u.timestamp) && decide (u.timestamp ≤ m.duration)) &&
  m.jungle_positions.all (fun j =>
    decide (0 ≤ j.timestamp) && decide (j.timestamp ≤ m.duration))

/-- The amended invariant over a whole generated list. -/
def lolEventTimestampsOk (ms : List LolMatch) : Bool :=
  ms.all lolMatchEventsOk

/-- A random-source state on which the generator emits a dragon capture
timestamped after the game ends: the match is drawn with duration 1501 s,
the 1500 s dragon spawn passes its 80% gate, and the capture delay is the
maximal 120 s, giving timestamp 1620 > 1501. -/
def c2CexOracle : ℕ → ℕ := fun i =>
  if i = 0 then 700
  else if i = 1 then 1
  else if 27 ≤ i ∧ i ≤ 30 then 800
  else if i = 33 then 120
  else 0

/-- Evaluates the generator on `c2CexOracle` and checks whether some dragon
event is timestamped strictly after its match's duration. -/
def c2CexHasLateDragon : Bool :=
  match MockDataGenerator.generate_lol_match_data "Cloud9" 0 1 c2CexOracle 0 with
  | .ok (ms, _) =>
      ms.any (fun m => m.dragons.any (fun d => decide (m.duration < d.timestamp)))
  | .error _ => false

/-- A concrete run of the LoL generator (on the all-zeros random source)
used to witness the amended claim C2 on a closed instance. -/
def c2WitnessRun : List LolMatch × ℕ :=
  match MockDataGenerator.generate_lol_match_data "Cloud9" 0 1 (fun _ => 0) 0 with
  | .ok p => p
  | .error _ => ([], 0)

/-! ## Concrete scenario inputs -/

/-- A minimal LoL match carrying one dragon event credited to `dragonTeam`
(scenario input of claim C4). -/
def mkDragonLolMatch (won : Bool) (dragonTeam : String) : LolMatch :=
  { match_id := "LOL_1"
    date := 0
    team := "T"
    opponent := "O"
    won := won
    duration := 1800
    kills := []
    dragons := [{ timestamp := 320, team := dragonTeam,
                  dragon_type := "Cloud", x := 9800, y := 4200 }]
    barons := []
    heralds := []
    gold_updates := []
    jungle_positions := [] }

/-- Scenario input of claim C4: 5 matches (4 wins), dragons present in every
match, the analyzed team `"T"` taking the chronologically-first dragon in 3. -/
def c4Matches : List LolMatch :=
  [mkDragonLolMatch true "T", mkDragonLolMatch true "T",
   mkDragonLolMatch true "T", mkDragonLolMatch true "E",
   mkDragonLolMatch false "E"]

/-- A minimal LoL match whose gold snapshots put the 10-minute bucket
average at 100 and the 15-minute bucket average at 200 (counterexample
input of claim C3). -/
def goldLolMatch : LolMatch :=
  { match_id := "LOL_1"
    date := 0
    team := "T"
    opponent := "O"
    won := true
    duration := 1800
    kills := []
    dragons := []
    barons := []
    heralds := []
    gold_updates :=
      [{ timestamp := 600, team_gold := 0, enemy_gold := 0,
         gold_difference := 100 },
       { timestamp := 900, team_gold := 0, enemy_gold := 0,
         gold_difference := 200 }]
    jungle_positions := [] }

/-- A minimal LoL match with three jungle-position samples (two Top, one
Mid); witness input of claims C7 and C10. -/
def jungleLolMatch : LolMatch :=
  { match_id := "LOL_1"
    date := 0
    team := "T"
    opponent := "O"
    won := true
    duration := 1800
    kills := []
    dragons := []
    barons := []
    heralds := []
    gold_updates := []
    jungle_positions :=
      [{ timestamp := 10, x := 2000, y := 11000, lane := "Top" },
       { timestamp := 20, x := 2500, y := 12000, lane := "Top" },
       { timestamp := 30, x := 7000, y := 7000, lane := "Mid" }] }

/-- A minimal VALORANT round with the given first-blood credit and winner
(scenario input of claim C5). -/
def mkSimpleValRound (fb winner : String) : ValRound :=
  { round_number := 1
    winner := winner
    team_loadout_value := 4000
    enemy_loadout_value := 4000
    is_team_eco := false
    is_enemy_eco := false
    spike_planted := false
    spike_site := none
    spike_coords := none
    first_blood_team := fb
    first_blood_location := { x := 50, y := 50 }
    round_duration := 60 }

/-- Scenario input of claim C5: one match of 20 rounds where the analyzed
team `"T"` takes first blood in 10 rounds and wins 8 of those 10. -/
def c5Match : ValMatch :=
  { match_id := "VAL_1"
    date := 0
    team := "T"
    opponent := "O"
    team_score := 8
    enemy_score := 13
    won := false
    map := "Ascent"
    rounds :=
      List.replicate 8 (mkSimpleValRound "T" "T")
      ++ List.replicate 2 (mkSimpleValRound "T" "Enemy")
      ++ List.replicate 10 (mkSimpleValRound "Enemy" "Enemy") }

/-- A random computation that succeeds (raises no exception) on every state
of the random source. -/
def GSucc {α : Type} (m : GenM α) : Prop :=
  ∀ g i, ∃ a j, m g i = .ok (a, j)

/-! ## Helper lemmas: rounding -/

/-- Round-half-to-even lands within half a unit of its argument. -/
theorem pyRoundInt_abs_le (q : ℚ) : |(pyRoundInt q : ℚ) - q| ≤ 1 / 2 := by
  have h0 : (0 : ℚ) ≤ q - ⌊q⌋ := sub_nonneg.2 (Int.floor_le q)
  have h1 : q - ⌊q⌋ < 1 := by
    have := Int.lt_floor_add_one q
    linarith
  rw [abs_le]
  unfold pyRoundInt
  split_ifs with hlt hgt hev
  · constructor <;> push_cast <;> linarith
  · constructor <;> push_cast <;> linarith
  · have he : q - ⌊q⌋ = 1 / 2 := le_antisymm (not_lt.1 hgt) (not_lt.1 hlt)
    constructor <;> push_cast <;> linarith
  · have he : q - ⌊q⌋ = 1 / 2 := le_antisymm (not_lt.1 hgt) (not_lt.1 hlt)
    constructor <;> push_cast <;> linarith

/-- Rounding to one decimal lands within 1/20 of the argument. -/
theorem pyRound1_abs_le (q : ℚ) : |pyRound1 q - q| ≤ 1 / 20 := by
  have h := pyRoundInt_abs_le (q * 10)
  unfold pyRound1
  have hrw : (pyRoundInt (q * 10) : ℚ) / 10 - q
      = ((pyRoundInt (q * 10) : ℚ) - q * 10) / 10 := by ring
  rw [hrw, abs_div]
  rw [show |(10 : ℚ)| = 10 by norm_num]
  linarith

/-- Round-half-to-even is the identity on integers. -/
theorem pyRoundInt_intCast (n : ℤ) : pyRoundInt ((n : ℤ) : ℚ) = n := by
  unfold pyRoundInt
  rw [Int.floor_intCast]
  norm_num

/-- Rounding an integer to one decimal is the identity. -/
theorem pyRound1_intCast (n : ℤ) : pyRound1 ((n : ℤ) : ℚ) = ((n : ℤ) : ℚ) := by
  unfold pyRound1
  have hrw : ((n : ℤ) : ℚ) * 10 = (((10 * n : ℤ) : ℤ) : ℚ) := by push_cast; ring
  rw [hrw, pyRoundInt_intCast]
  push_cast
  ring

/-- Rounding an integer to zero decimals is the identity. -/
theorem pyRound0_intCast (n : ℤ) : pyRound0 ((n : ℤ) : ℚ) = ((n : ℤ) : ℚ) := by
  unfold pyRound0
  rw [pyRoundInt_intCast]

/-! ## Helper lemmas: lists and counters -/

/-- Counting three mutually-exclusive, jointly-exhaustive predicates yields
the list length. -/
theorem countP_three_partition {α : Type} (p q r : α → Bool) :
    ∀ l : List α, (∀ x ∈ l, (p x).toNat + (q x).toNat + (r x).toNat = 1) →
    l.countP p + l.countP q + l.countP r = l.length
  | [], _ => by simp
  | a :: l, h => by
    have ha := h a (List.mem_cons_self a l)
    have hl := countP_three_partition p q r l
      (fun x hx => h x (List.mem_cons_of_mem a hx))
    simp only [List.countP_cons, List.length_cons]
    cases hpa : p a <;> cases hqa : q a <;> cases hra : r a <;>
      simp [hpa, hqa, hra] at ha ⊢ <;> omega

/-- A two-level fold over nested lists is a fold over the flattened list. -/
theorem foldl_flatMap_eq {α β γ : Type} (step : γ → α → γ) (f : β → List α) :
    ∀ (l : List β) (a : γ),
    l.foldl (fun acc b => (f b).foldl step acc) a = (l.flatMap f).foldl step a
  | [], _ => rfl
  | b :: l, a => by
    rw [List.flatMap_cons, List.foldl_append, List.foldl_cons]
    exact foldl_flatMap_eq step f l ((f b).foldl step a)

/-- Accumulating by appending is flattening. -/
theorem foldl_append_eq_flatMap {α β : Type} (f : β → List α) :
    ∀ (l : List β) (acc : List α),
    l.foldl (fun acc b => acc ++ f b) acc = acc ++ l.flatMap f
  | [], acc => by simp
  | b :: l, acc => by
    rw [List.foldl_cons, foldl_append_eq_flatMap f l (acc ++ f b),
      List.flatMap_cons, List.append_assoc]

/-- Bumping a counter key affects exactly that key's count. -/
theorem cget_cbump (c : Counter) (x k : String) :
    cget (cbump c x) k = cget c k + (if x = k then 1 else 0) := by
  induction c with
  | nil =>
      by_cases hxk : x = k <;> simp [cbump, cget, hxk]
  | cons e rest ih =>
      obtain ⟨a, n⟩ := e
      by_cases hax : a = x
      · subst hax
        by_cases hak : a = k
        · subst hak; simp [cbump, cget]
        · simp [cbump, cget, hak]
      · by_cases hak : a = k
        · subst hak
          have hxk : x ≠ a := fun hh => hax hh.symm
          simp [cbump, cget, hax, hxk]
        · simp [cbump, cget, hax, hak, ih]

/-- Folding bumps over a list adds occurrence counts. -/
theorem cget_foldl_cbump :
    ∀ (l : List String) (c : Counter) (k : String),
    cget (l.foldl cbump c) k = cget c k + l.countP (fun s => decide (s = k))
  | [], _, _ => by simp
  | a :: l, c, k => by
    rw [List.foldl_cons, cget_foldl_cbump l (cbump c a) k, cget_cbump,
      List.countP_cons]
    by_cases hak : a = k <;> simp [hak] <;> omega

/-- A fresh counter over an iterable counts occurrences. -/
theorem cget_counterOf (l : List String) (k : String) :
    cget (counterOf l) k = l.countP (fun s => decide (s = k)) := by
  have h := cget_foldl_cbump l [] k
  simpa [counterOf, cget] using h

/-! ## Helper lemmas: analyzer loop refinements -/

/-- The opening-duel loop is a count over the rounds it scans. -/
theorem fbStep_foldl (tn : String) :
    ∀ (rs : List ValRound) (acc : ValorantAnalyzer.FbAcc),
    rs.foldl (ValorantAnalyzer.fbStep tn) acc =
      { total_rounds := acc.total_rounds + rs.length
        team_first_bloods := acc.team_first_bloods
          + rs.countP (fun r => decide (r.first_blood_team = tn))
        rounds_won_with_fb := acc.rounds_won_with_fb
          + rs.countP (fun r =>
              decide (r.first_blood_team = tn) && decide (r.winner = tn))
        rounds_won_without_fb := acc.rounds_won_without_fb
          + rs.countP (fun r =>
              !decide (r.first_blood_team = tn) && decide (r.winner = tn)) }
  | [], acc => by simp
  | r :: rs, acc => by
    rw [List.foldl_cons, fbStep_foldl tn rs]
    unfold ValorantAnalyzer.fbStep
    by_cases hfb : r.first_blood_team = tn <;>
      by_cases hw : r.winner = tn <;>
        simp [hfb, hw, List.countP_cons, ValorantAnalyzer.FbAcc.mk.injEq] <;>
          omega

/-- The economy loop is a count over the rounds it scans. -/
theorem ecoStep_foldl (tn : String) :
    ∀ (rs : List ValRound) (acc : ValorantAnalyzer.EcoAcc),
    rs.foldl (ValorantAnalyzer.ecoStep tn) acc =
      { eco_rounds := acc.eco_rounds + rs.countP specEcoPred
        eco_wins := acc.eco_wins
          + rs.countP (fun r => specEcoPred r && decide (r.winner = tn))
        force_rounds := acc.force_rounds + rs.countP specForcePred
        force_wins := acc.force_wins
          + rs.countP (fun r => specForcePred r && decide (r.winner = tn))
        full_buy_rounds := acc.full_buy_rounds + rs.countP specFullBuyPred
        full_buy_wins := acc.full_buy_wins
          + rs.countP (fun r => specFullBuyPred r && decide (r.winner = tn)) }
  | [], acc => by simp
  | r :: rs, acc => by
    rw [List.foldl_cons, ecoStep_foldl tn rs]
    unfold ValorantAnalyzer.ecoStep
    by_cases h1 : r.team_loadout_value < 2000
    · have he : specEcoPred r = true := by simp [specEcoPred, h1]
      have hf : specForcePred r = false := by simp [specForcePred]; omega
      have hb : specFullBuyPred r = false := by simp [specFullBuyPred]; omega
      by_cases hw : r.winner = tn <;>
        simp [h1, hw, he, hf, hb, List.countP_cons,
          ValorantAnalyzer.EcoAcc.mk.injEq] <;> omega
    · by_cases h2 : r.team_loadout_value < 3500
      · have hc : 2000 ≤ r.team_loadout_value ∧ r.team_loadout_value < 3500 :=
          ⟨by omega, h2⟩
        have he : specEcoPred r = false := by simp [specEcoPred]; omega
        have hf : specForcePred r = true := by
          simp [specForcePred]; omega
        have hb : specFullBuyPred r = false := by simp [specFullBuyPred]; omega
        by_cases hw : r.winner = tn <;>
          simp [h1, hc, hw, he, hf, hb, List.countP_cons,
            ValorantAnalyzer.EcoAcc.mk.injEq] <;> omega
      · have hc : ¬(2000 ≤ r.team_loadout_value ∧ r.team_loadout_value < 3500) := by
          omega
        have he : specEcoPred r = false := by simp [specEcoPred]; omega
        have hf : specForcePred r = false := by simp [specForcePred]; omega
        have hb : specFullBuyPred r = true := by simp [specFullBuyPred]; omega
        by_cases hw : r.winner = tn <;>
          simp [h1, hc, hw, he, hf, hb, List.countP_cons,
            ValorantAnalyzer.EcoAcc.mk.injEq] <;> omega

/-- The inner dragon-counting loop of the objective-control method. -/
theorem dragonCount_foldl (tn : String) :
    ∀ (ds : List DragonEvent) (acc : LolAnalyzer.ObjAcc),
    ds.foldl (fun acc d =>
      { acc with
        total_dragons := acc.total_dragons + 1
        team_dragons :=
          if d.team = tn then acc.team_dragons + 1 else acc.team_dragons }) acc
      = { acc with
          total_dragons := acc.total_dragons + ds.length
          team_dragons := acc.team_dragons
            + ds.countP (fun d => decide (d.team = tn)) }
  | [], acc => by simp
  | d :: ds, acc => by
    rw [List.foldl_cons, dragonCount_foldl tn ds]
    by_cases ht : d.team = tn <;>
      simp [ht, List.countP_cons, LolAnalyzer.ObjAcc.mk.injEq] <;> omega

/-- The inner herald-counting loop of the objective-control method. -/
theorem heraldCount_foldl (tn : String) :
    ∀ (hs : List ObjectiveEvent) (acc : LolAnalyzer.ObjAcc),
    hs.foldl (fun acc h =>
      { acc with
        total_heralds := acc.total_heralds + 1
        team_heralds :=
          if h.team = tn then acc.team_heralds + 1 else acc.team_heralds }) acc
      = { acc with
          total_heralds := acc.total_heralds + hs.length
          team_heralds := acc.team_heralds
            + hs.countP (fun h => decide (h.team = tn)) }
  | [], acc => by simp
  | h :: hs, acc => by
    rw [List.foldl_cons, heraldCount_foldl tn hs]
    by_cases ht : h.team = tn <;>
      simp [ht, List.countP_cons, LolAnalyzer.ObjAcc.mk.injEq] <;> omega

/-- One step of the objective-control match loop, in closed form. -/
theorem objStep_eq (tn : String) (acc : LolAnalyzer.ObjAcc) (m : LolMatch) :
    LolAnalyzer.objStep tn acc m =
      { first_dragons := acc.first_dragons + (hasDragon m).toNat
        first_dragons_taken :=
          acc.first_dragons_taken + (firstDragonToTeam tn m).toNat
        total_dragons := acc.total_dragons + m.dragons.length
        team_dragons := acc.team_dragons
          + m.dragons.countP (fun d => decide (d.team = tn))
        total_heralds := acc.total_heralds + m.heralds.length
        team_heralds := acc.team_heralds
          + m.heralds.countP (fun h => decide (h.team = tn)) } := by
  cases hd : m.dragons with
  | nil =>
      simp only [LolAnalyzer.objStep, hd]
      rw [heraldCount_foldl tn]
      simp [hasDragon, firstDragonToTeam, hd]
  | cons d0 ds =>
      simp only [LolAnalyzer.objStep, hd]
      rw [dragonCount_foldl tn, heraldCount_foldl tn]
      by_cases ht : d0.team = tn <;>
        simp [hasDragon, firstDragonToTeam, hd, ht,
          LolAnalyzer.ObjAcc.mk.injEq, List.countP_cons] <;>
          omega

/-- The objective-control match loop is a count over the match list. -/
theorem objStep_foldl (tn : String) :
    ∀ (ms : List LolMatch) (acc : LolAnalyzer.ObjAcc),
    ms.foldl (LolAnalyzer.objStep tn) acc =
      { first_dragons := acc.first_dragons + ms.countP hasDragon
        first_dragons_taken :=
          acc.first_dragons_taken + ms.countP (firstDragonToTeam tn)
        total_dragons := acc.total_dragons
          + (ms.map (fun m => m.dragons.length)).sum
        team_dragons := acc.team_dragons
          + (ms.map (fun m =>
              m.dragons.countP (fun d => decide (d.team = tn)))).sum
        total_heralds := acc.total_heralds
          + (ms.map (fun m => m.heralds.length)).sum
        team_heralds := acc.team_heralds
          + (ms.map (fun m =>
              m.heralds.countP (fun h => decide (h.team = tn)))).sum }
  | [], acc => by simp
  | m :: ms, acc => by
    rw [List.foldl_cons, objStep_foldl tn ms, objStep_eq tn]
    simp [List.countP_cons, LolAnalyzer.ObjAcc.mk.injEq]
    refine ⟨by cases hd : hasDragon m <;> simp [hd] <;> omega,
      by cases hf : firstDragonToTeam tn m <;> simp [hf] <;> omega,
      by omega, by omega, by omega, by omega⟩

/-- The baron-counting loop (a pair fold) in closed form. -/
theorem baronCount_foldl (tn : String) :
    ∀ (bs : List ObjectiveEvent) (p : ℕ × ℕ),
    bs.foldl (fun (p : ℕ × ℕ) b =>
      (p.1 + 1, if b.team = tn then p.2 + 1 else p.2)) p =
      (p.1 + bs.length, p.2 + bs.countP (fun b => decide (b.team = tn)))
  | [], p => by simp
  | b :: bs, p => by
    rw [List.foldl_cons, baronCount_foldl tn bs]
    by_cases ht : b.team = tn <;> simp [ht, List.countP_cons] <;> omega

/-- The gold-bucketing loop appends, per bucket, the differentials of the
snapshots falling in that bucket's window. -/
theorem goldStep_foldl :
    ∀ (us : List GoldUpdate) (abc : List ℤ × List ℤ × List ℤ),
    us.foldl LolAnalyzer.goldStep abc =
      (abc.1 ++ (us.filter (fun u =>
         decide (9 * 60 ≤ u.timestamp) && decide (u.timestamp ≤ 11 * 60))).map
           (fun u => u.gold_difference),
       abc.2.1 ++ (us.filter (fun u =>
         decide (14 * 60 ≤ u.timestamp) && decide (u.timestamp ≤ 16 * 60))).map
           (fun u => u.gold_difference),
       abc.2.2 ++ (us.filter (fun u =>
         decide (19 * 60 ≤ u.timestamp) && decide (u.timestamp ≤ 21 * 60))).map
           (fun u => u.gold_difference))
  | [], abc => by simp
  | u :: us, abc => by
    rw [List.foldl_cons, goldStep_foldl us]
    unfold LolAnalyzer.goldStep
    by_cases c1 : 540 ≤ u.timestamp ∧ u.timestamp ≤ 660
    · have c2 : ¬(840 ≤ u.timestamp ∧ u.timestamp ≤ 960) := by omega
      have c3 : ¬(1140 ≤ u.timestamp ∧ u.timestamp ≤ 1260) := by omega
      simp [c1, c2, c3, List.filter_cons]
    · by_cases c2 : 840 ≤ u.timestamp ∧ u.timestamp ≤ 960
      · have c3 : ¬(1140 ≤ u.timestamp ∧ u.timestamp ≤ 1260) := by omega
        simp [c1, c2, c3, List.filter_cons]
      · by_cases c3 : 1140 ≤ u.timestamp ∧ u.timestamp ≤ 1260
        · simp [c1, c2, c3, List.filter_cons]
        · simp [c1, c2, c3, List.filter_cons]

/-! ## Helper lemmas: sorting and the random-source monad -/

/-- Insertion preserves membership. -/
theorem mem_insertByTs {α : Type} (ts : α → ℤ) (a x : α) :
    ∀ l : List α, x ∈ insertByTs ts a l ↔ x = a ∨ x ∈ l
  | [] => by simp [insertByTs]
  | b :: bs => by
    unfold insertByTs
    split_ifs with h
    · simp
    · simp [mem_insertByTs ts a x bs]
      tauto

/-- Sorting preserves membership. -/
theorem mem_sortByTimestamp {α : Type} (ts : α → ℤ) (x : α) :
    ∀ l : List α, x ∈ sortByTimestamp ts l ↔ x ∈ l
  | [] => Iff.rfl
  | b :: bs => by
    show x ∈ insertByTs ts b (sortByTimestamp ts bs) ↔ _
    rw [mem_insertByTs, mem_sortByTimestamp ts x bs]
    simp

/-- Inversion for `gbind`. -/
theorem gbind_ok {α β : Type} {m : GenM α} {f : α → GenM β} {g : ℕ → ℕ}
    {i : ℕ} {b : β} {k : ℕ} (h : gbind m f g i = .ok (b, k)) :
    ∃ a j, m g i = .ok (a, j) ∧ f a g j = .ok (b, k) := by
  unfold gbind at h
  revert h
  cases hm : m g i with
  | error e => intro h; exact absurd h (by simp)
  | ok p => intro h; exact ⟨p.1, p.2, rfl, h⟩

/-- Inversion for `gpure`. -/
theorem gpure_ok {α : Type} {a b : α} {g : ℕ → ℕ} {i j : ℕ}
    (h : gpure a g i = .ok (b, j)) : b = a ∧ j = i := by
  unfold gpure at h
  simp at h
  exact ⟨h.1.symm, h.2.symm⟩

/-- `randint` only returns values inside the requested closed interval. -/
theorem randint_ok_bound {lo hi : ℤ} {g : ℕ → ℕ} {i : ℕ} {v : ℤ} {j : ℕ}
    (h : randint lo hi g i = .ok (v, j)) : lo ≤ v ∧ v ≤ hi := by
  unfold randint at h
  split_ifs at h with hle
  · simp only [Except.ok.injEq, Prod.mk.injEq] at h
    have hpos : (0 : ℤ) < hi - lo + 1 := by omega
    have h0 : 0 ≤ ((g i : ℕ) : ℤ) % (hi - lo + 1) :=
      Int.emod_nonneg _ (by omega)
    have h1 : ((g i : ℕ) : ℤ) % (hi - lo + 1) < hi - lo + 1 :=
      Int.emod_lt_of_pos _ hpos
    omega

/-- A successful `greplicateIdx` returns exactly `c` values. -/
theorem greplicateIdx_ok_length {α : Type} (f : ℕ → GenM α) :
    ∀ (c s : ℕ) (g : ℕ → ℕ) (i : ℕ) (l : List α) (j : ℕ),
    greplicateIdx f s c g i = .ok (l, j) → l.length = c
  | 0, s, g, i, l, j, h => by
    obtain ⟨hl, _⟩ := gpure_ok h
    simp [hl]
  | Nat.succ c, s, g, i, l, j, h => by
    obtain ⟨a, i1, _, h⟩ := gbind_ok h
    obtain ⟨rest, i2, hrest, h⟩ := gbind_ok h
    obtain ⟨hl, _⟩ := gpure_ok h
    have := greplicateIdx_ok_length f c (s + 1) g i1 rest i2 hrest
    simp [hl, this]

/-- Every value returned by a successful `greplicateIdx` satisfies any
property enjoyed by all possible outputs of the body. -/
theorem greplicateIdx_ok_mem {α : Type} (f : ℕ → GenM α) (P : α → Prop)
    (hf : ∀ (k : ℕ) (g : ℕ → ℕ) (i : ℕ) (a : α) (j : ℕ),
      f k g i = .ok (a, j) → P a) :
    ∀ (c s : ℕ) (g : ℕ → ℕ) (i : ℕ) (l : List α) (j : ℕ),
    greplicateIdx f s c g i = .ok (l, j) → ∀ x ∈ l, P x
  | 0, s, g, i, l, j, h => by
    obtain ⟨hl, _⟩ := gpure_ok h
    simp [hl]
  | Nat.succ c, s, g, i, l, j, h => by
    obtain ⟨a, i1, ha, h⟩ := gbind_ok h
    obtain ⟨rest, i2, hrest, h⟩ := gbind_ok h
    obtain ⟨hl, _⟩ := gpure_ok h
    subst hl
    intro x hx
    rcases List.mem_cons.1 hx with hxa | hxr
    · exact hxa ▸ hf s g i a i1 ha
    · exact greplicateIdx_ok_mem f P hf c (s + 1) g i1 rest i2 hrest x hxr

/-- Membership version for `gmapM`: every output value comes from some list
element through a successful run of the body. -/
theorem gmapM_ok_mem {α β : Type} (f : β → GenM α) (P : α → Prop) :
    ∀ (bs : List β),
    (∀ b ∈ bs, ∀ (g : ℕ → ℕ) (i : ℕ) (a : α) (j : ℕ),
      f b g i = .ok (a, j) → P a) →
    ∀ (g : ℕ → ℕ) (i : ℕ) (l : List α) (j : ℕ),
    gmapM f bs g i = .ok (l, j) → ∀ x ∈ l, P x
  | [], _, g, i, l, j, h => by
    obtain ⟨hl, _⟩ := gpure_ok h
    simp [hl]
  | b :: bs, hf, g, i, l, j, h => by
    obtain ⟨a, i1, ha, h⟩ := gbind_ok h
    obtain ⟨rest, i2, hrest, h⟩ := gbind_ok h
    obtain ⟨hl, _⟩ := gpure_ok h
    subst hl
    intro x hx
    rcases List.mem_cons.1 hx with hxa | hxr
    · exact hxa ▸ hf b (List.mem_cons_self b bs) g i a i1 ha
    · exact gmapM_ok_mem f P bs
        (fun b hb => hf b (List.mem_cons_of_mem _ hb)) g i1 rest i2 hrest x hxr

/-- Membership version for `gfilterMapM`. -/
theorem gfilterMapM_ok_mem {α β : Type} (f : β → GenM (Option α))
    (P : α → Prop) :
    ∀ (bs : List β),
    (∀ b ∈ bs, ∀ (g : ℕ → ℕ) (i : ℕ) (a : α) (j : ℕ),
      f b g i = .ok (some a, j) → P a) →
    ∀ (g : ℕ → ℕ) (i : ℕ) (l : List α) (j : ℕ),
    gfilterMapM f bs g i = .ok (l, j) → ∀ x ∈ l, P x
  | [], _, g, i, l, j, h => by
    obtain ⟨hl, _⟩ := gpure_ok h
    simp [hl]
  | b :: bs, hf, g, i, l, j, h => by
    obtain ⟨oa, i1, ha, h⟩ := gbind_ok h
    obtain ⟨rest, i2, hrest, h⟩ := gbind_ok h
    obtain ⟨hl, _⟩ := gpure_ok h
    subst hl
    intro x hx
    have hrec := gfilterMapM_ok_mem f P bs
      (fun b hb => hf b (List.mem_cons_of_mem _ hb)) g i1 rest i2 hrest
    cases oa with
    | none => exact hrec x hx
    | some a =>
        rcases List.mem_cons.1 hx with hxa | hxr
        · exact hxa ▸ hf b (List.mem_cons_self b bs) g i a i1 ha
        · exact hrec x hxr

/-- Elements of a positive-step Python range lie in `[lo, hi)`. -/
theorem pyRangeStep_mem_bounds {lo hi step x : ℤ} (hstep : 0 < step)
    (hx : x ∈ pyRangeStep lo hi step) : lo ≤ x ∧ x < hi := by
  unfold pyRangeStep at hx
  obtain ⟨k, hk, hkx⟩ := List.mem_map.1 hx
  rw [List.mem_range] at hk
  subst hkx
  have hk1 : ((k : ℤ)) < (hi - lo + (step - 1)) / step := by
    exact_mod_cast Int.lt_toNat.1 hk
  have hk2 : (k : ℤ) + 1 ≤ (hi - lo + (step - 1)) / step := by omega
  have hdm : (hi - lo + (step - 1)) / step * step ≤ hi - lo + (step - 1) :=
    Int.ediv_mul_le _ (by omega)
  have hmul : ((k : ℤ) + 1) * step ≤ (hi - lo + (step - 1)) / step * step :=
    mul_le_mul_of_nonneg_right hk2 (by omega)
  have hknn : (0 : ℤ) ≤ (k : ℤ) := Int.natCast_nonneg k
  constructor
  · nlinarith
  · nlinarith

/-- `gbind` of two succeeding computations succeeds. -/
theorem gsucc_bind {α β : Type} {m : GenM α} {f : α → GenM β}
    (hm : GSucc m)
    (hf : ∀ (a : α) (g : ℕ → ℕ) (i j : ℕ), m g i = .ok (a, j) → GSucc (f a)) :
    GSucc (gbind m f) := by
  intro g i
  obtain ⟨a, j, ha⟩ := hm g i
  obtain ⟨b, k, hb⟩ := hf a g i j ha g j
  exact ⟨b, k, by unfold gbind; rw [ha]; exact hb⟩

/-- `gpure` succeeds. -/
theorem gsucc_pure {α : Type} (a : α) : GSucc (gpure a) :=
  fun _ i => ⟨a, i, rfl⟩

/-- `randomFloat` succeeds. -/
theorem gsucc_randomFloat : GSucc randomFloat :=
  fun g i => ⟨mkRat ((g i % 1000 : ℕ) : ℤ) 1000, i + 1, rfl⟩

/-- `randint` succeeds on a non-empty range. -/
theorem gsucc_randint {lo hi : ℤ} (h : lo ≤ hi) : GSucc (randint lo hi) :=
  fun g i => ⟨lo + (g i : ℤ) % (hi - lo + 1), i + 1, by
    unfold randint
    rw [if_pos h]⟩

/-- `randomChoice` succeeds on a non-empty sequence. -/
theorem gsucc_randomChoice {α : Type} {l : List α} (h : l ≠ []) :
    GSucc (randomChoice l) := by
  intro g i
  cases l with
  | nil => exact absurd rfl h
  | cons a as =>
      exact ⟨(a :: as).get ⟨g i % (a :: as).length,
        Nat.mod_lt _ (Nat.succ_pos _)⟩, i + 1, rfl⟩

/-- `greplicateIdx` of an always-succeeding body succeeds. -/
theorem gsucc_greplicateIdx {α : Type} {f : ℕ → GenM α}
    (hf : ∀ k, GSucc (f k)) : ∀ (c s : ℕ), GSucc (greplicateIdx f s c)
  | 0, s => gsucc_pure []
  | Nat.succ c, s =>
      gsucc_bind (hf s) (fun a _ _ _ _ =>
        gsucc_bind (gsucc_greplicateIdx hf c (s + 1)) (fun rest _ _ _ _ =>
          gsucc_pure (a :: rest)))

/-- `gmapM` of a body succeeding on every element succeeds. -/
theorem gsucc_gmapM {α β : Type} {f : β → GenM α} :
    ∀ (bs : List β), (∀ b ∈ bs, GSucc (f b)) → GSucc (gmapM f bs)
  | [], _ => gsucc_pure []
  | b :: bs, hf =>
      gsucc_bind (hf b (List.mem_cons_self b bs)) (fun a _ _ _ _ =>
        gsucc_bind (gsucc_gmapM bs (fun x hx => hf x (List.mem_cons_of_mem _ hx)))
          (fun rest _ _ _ _ => gsucc_pure _))

/-- `gfilterMapM` of a body succeeding on every element succeeds. -/
theorem gsucc_gfilterMapM {α β : Type} {f : β → GenM (Option α)} :
    ∀ (bs : List β), (∀ b ∈ bs, GSucc (f b)) → GSucc (gfilterMapM f bs)
  | [], _ => gsucc_pure []
  | b :: bs, hf =>
      gsucc_bind (hf b (List.mem_cons_self b bs)) (fun oa _ _ _ _ =>
        gsucc_bind
          (gsucc_gfilterMapM bs (fun x hx => hf x (List.mem_cons_of_mem _ hx)))
          (fun rest _ _ _ _ => gsucc_pure _))

/-! ## Helper lemmas: generated event timestamps -/

namespace MockDataGenerator

/-- Generated kills are timestamped in `[180, duration]`. -/
theorem genKill_ts_bound (tn : String) (dur : ℤ) (k : ℕ) (g : ℕ → ℕ) (i : ℕ)
    (v : KillEvent) (j : ℕ) (h : genKill tn dur k g i = .ok (v, j)) :
    180 ≤ v.timestamp ∧ v.timestamp ≤ dur := by
  unfold genKill at h
  obtain ⟨ts, i1, hts, h⟩ := gbind_ok h
  obtain ⟨x, i2, _, h⟩ := gbind_ok h
  obtain ⟨y, i3, _, h⟩ := gbind_ok h
  obtain ⟨hv, _⟩ := gpure_ok h
  subst hv
  exact randint_ok_bound hts

/-- Generated dragon captures (when emitted) are timestamped in
`[spawn, spawn + 120]`, hence within `[0, duration + 120)` for a
non-negative spawn before game end. -/
theorem genDragon_ts_bound (tn : String) (won : Bool) (dur spawn : ℤ)
    (hs : 0 ≤ spawn) (g : ℕ → ℕ) (i : ℕ) (d : DragonEvent) (j : ℕ)
    (h : genDragon tn won dur spawn g i = .ok (some d, j)) :
    0 ≤ d.timestamp ∧ d.timestamp < dur + 120 := by
  unfold genDragon at h
  by_cases hlt : spawn < dur
  · rw [if_pos hlt] at h
    obtain ⟨gate, i1, _, h⟩ := gbind_ok h
    by_cases hgate : gate < mkRat 8 10
    · rw [if_pos hgate] at h
      obtain ⟨r, i2, _, h⟩ := gbind_ok h
      obtain ⟨delay, i3, hdel, h⟩ := gbind_ok h
      obtain ⟨dt, i4, _, h⟩ := gbind_ok h
      obtain ⟨hv, _⟩ := gpure_ok h
      have hdb := randint_ok_bound hdel
      injection hv with hd
      subst hd
      show 0 ≤ spawn + delay ∧ spawn + delay < dur + 120
      omega
    · rw [if_neg hgate] at h
      obtain ⟨hv, _⟩ := gpure_ok h
      exact absurd hv (by simp)
  · rw [if_neg hlt] at h
    obtain ⟨hv, _⟩ := gpure_ok h
    exact absurd hv (by simp)

/-- Generated barons are timestamped in `[1200, duration - 60]`. -/
theorem genBaron_ts_bound (tn : String) (won : Bool) (dur : ℤ) (b : ℕ)
    (g : ℕ → ℕ) (i : ℕ) (v : ObjectiveEvent) (j : ℕ)
    (h : genBaron tn won dur b g i = .ok (v, j)) :
    1200 ≤ v.timestamp ∧ v.timestamp ≤ dur - 60 := by
  unfold genBaron at h
  obtain ⟨ts, i1, hts, h⟩ := gbind_ok h
  obtain ⟨r, i2, _, h⟩ := gbind_ok h
  obtain ⟨hv, _⟩ := gpure_ok h
  subst hv
  exact randint_ok_bound hts

/-- Generated heralds are timestamped in `[480, min 1185 duration]`. -/
theorem genHerald_ts_bound (tn : String) (won : Bool) (dur : ℤ) (hh : ℕ)
    (g : ℕ → ℕ) (i : ℕ) (v : ObjectiveEvent) (j : ℕ)
    (h : genHerald tn won dur hh g i = .ok (v, j)) :
    480 ≤ v.timestamp ∧ v.timestamp ≤ min 1185 dur := by
  unfold genHerald at h
  obtain ⟨ts, i1, hts, h⟩ := gbind_ok h
  obtain ⟨r, i2, _, h⟩ := gbind_ok h
  obtain ⟨hv, _⟩ := gpure_ok h
  subst hv
  exact randint_ok_bound hts

/-- Generated gold updates are timestamped at exactly their minute mark. -/
theorem genGoldUpdate_ts_eq (won : Bool) (minute : ℤ) (g : ℕ → ℕ) (i : ℕ)
    (u : GoldUpdate) (j : ℕ) (h : genGoldUpdate won minute g i = .ok (u, j)) :
    u.timestamp = minute * 60 := by
  unfold genGoldUpdate at h
  obtain ⟨variance, i1, _, h⟩ := gbind_ok h
  obtain ⟨hv, _⟩ := gpure_ok h
  subst hv
  rfl

/-- Generated jungle positions are timestamped in `[0, duration]`. -/
theorem genJunglePosition_ts_bound (dur : ℤ) (s : ℕ) (g : ℕ → ℕ) (i : ℕ)
    (v : JunglePosition) (j : ℕ)
    (h : genJunglePosition dur s g i = .ok (v, j)) :
    0 ≤ v.timestamp ∧ v.timestamp ≤ dur := by
  unfold genJunglePosition at h
  obtain ⟨ts, i1, hts, h⟩ := gbind_ok h
  obtain ⟨lb, i2, _, h⟩ := gbind_ok h
  have htb := randint_ok_bound hts
  by_cases h1 : lb < mkRat 35 100
  · rw [if_pos h1] at h
    obtain ⟨x, i3, _, h⟩ := gbind_ok h
    obtain ⟨y, i4, _, h⟩ := gbind_ok h
    obtain ⟨hv, _⟩ := gpure_ok h
    subst hv
    exact htb
  · rw [if_neg h1] at h
    by_cases h2 : lb < mkRat 70 100
    · rw [if_pos h2] at h
      obtain ⟨x, i3, _, h⟩ := gbind_ok h
      obtain ⟨y, i4, _, h⟩ := gbind_ok h
      obtain ⟨hv, _⟩ := gpure_ok h
      subst hv
      exact htb
    · rw [if_neg h2] at h
      obtain ⟨x, i3, _, h⟩ := gbind_ok h
      obtain ⟨y, i4, _, h⟩ := gbind_ok h
      obtain ⟨hv, _⟩ := gpure_ok h
      subst hv
      exact htb

/-- Every match the LoL generator can emit satisfies the per-match
timestamp invariant (kills, barons, heralds, gold snapshots and jungle
samples within `[0, duration]`; dragons within `[0, duration + 120)`). -/
theorem genLolMatch_eventsOk (tn : String) (now : ℤ) (mid : ℕ) (g : ℕ → ℕ)
    (i : ℕ) (m : LolMatch) (j : ℕ)
    (h : genLolMatch tn now mid g i = .ok (m, j)) :
    lolMatchEventsOk m = true := by
  unfold genLolMatch at h
  obtain ⟨wr, i1, _, h⟩ := gbind_ok h
  obtain ⟨dur, i2, hdur, h⟩ := gbind_ok h
  have hdb := randint_ok_bound hdur
  obtain ⟨nk, i3, hnk, h⟩ := gbind_ok h
  obtain ⟨kills, i4, hkills, h⟩ := gbind_ok h
  obtain ⟨dragons, i5, hdrag, h⟩ := gbind_ok h
  obtain ⟨barons, i6, hbar, h⟩ := gbind_ok h
  obtain ⟨heralds, i7, hher, h⟩ := gbind_ok h
  obtain ⟨gold, i8, hgold, h⟩ := gbind_ok h
  obtain ⟨nps, i9, hnps, h⟩ := gbind_ok h
  obtain ⟨jps, i10, hjp, h⟩ := gbind_ok h
  obtain ⟨hm, _⟩ := gpure_ok h
  subst hm
  simp only [lolMatchEventsOk, Bool.and_eq_true, List.all_eq_true,
    decide_eq_true_eq]
  refine ⟨⟨⟨⟨⟨?_, ?_⟩, ?_⟩, ?_⟩, ?_⟩, ?_⟩
  · intro x hx
    rw [mem_sortByTimestamp] at hx
    have hb := greplicateIdx_ok_mem (genKill tn dur)
      (fun v => 180 ≤ v.timestamp ∧ v.timestamp ≤ dur)
      (genKill_ts_bound tn dur) _ _ _ _ _ _ hkills x hx
    exact ⟨by omega, hb.2⟩
  · intro x hx
    rw [mem_sortByTimestamp] at hx
    have hsp : ∀ s ∈ dragon_spawn_times, (0 : ℤ) ≤ s := by decide
    have hb := gfilterMapM_ok_mem (genDragon tn (wr < mkRat 7 10) dur)
      (fun d => 0 ≤ d.timestamp ∧ d.timestamp < dur + 120)
      dragon_spawn_times
      (fun sp hsp2 g2 i2 a j2 hok =>
        genDragon_ts_bound tn _ dur sp (hsp sp hsp2) g2 i2 a j2 hok)
      _ _ _ _ hdrag x hx
    exact hb
  · intro x hx
    rw [mem_sortByTimestamp] at hx
    by_cases hc : 1200 < dur
    · rw [if_pos hc] at hbar
      obtain ⟨nb, ib, hnb, hbar⟩ := gbind_ok hbar
      have hb := greplicateIdx_ok_mem (genBaron tn (wr < mkRat 7 10) dur)
        (fun v => 1200 ≤ v.timestamp ∧ v.timestamp ≤ dur - 60)
        (genBaron_ts_bound tn _ dur) _ _ _ _ _ _ hbar x hx
      exact ⟨by omega, by omega⟩
    · rw [if_neg hc] at hbar
      obtain ⟨hv, _⟩ := gpure_ok hbar
      subst hv
      simp at hx
  · intro x hx
    rw [mem_sortByTimestamp] at hx
    by_cases hc : 480 < dur
    · rw [if_pos hc] at hher
      obtain ⟨nh, ih, hnh, hher⟩ := gbind_ok hher
      have hb := greplicateIdx_ok_mem (genHerald tn (wr < mkRat 7 10) dur)
        (fun v => 480 ≤ v.timestamp ∧ v.timestamp ≤ min 1185 dur)
        (genHerald_ts_bound tn _ dur) _ _ _ _ _ _ hher x hx
      have hmin : min (1185 : ℤ) dur ≤ dur := min_le_right _ _
      exact ⟨by omega, by omega⟩
    · rw [if_neg hc] at hher
      obtain ⟨hv, _⟩ := gpure_ok hher
      subst hv
      simp at hx
  · intro x hx
    rw [mem_sortByTimestamp] at hx
    have hb := gmapM_ok_mem (genGoldUpdate (wr < mkRat 7 10))
      (fun u => 0 ≤ u.timestamp ∧ u.timestamp ≤ dur)
      (pyRangeStep 5 (dur / 60 + 1) 5)
      (fun minute hmin g2 i2 a j2 hok => by
        have hmb := pyRangeStep_mem_bounds (by norm_num) hmin
        have hts := genGoldUpdate_ts_eq _ minute g2 i2 a j2 hok
        have hup : minute * 60 ≤ dur :=
          (Int.le_ediv_iff_mul_le (by norm_num : (0 : ℤ) < 60)).1 (by omega)
        constructor <;> omega)
      _ _ _ _ hgold x hx
    exact hb
  · intro x hx
    rw [mem_sortByTimestamp] at hx
    exact greplicateIdx_ok_mem (genJunglePosition dur)
      (fun v => 0 ≤ v.timestamp ∧ v.timestamp ≤ dur)
      (genJunglePosition_ts_bound dur) _ _ _ _ _ _ hjp x hx

end MockDataGenerator

/-! ## Helper lemmas: the generator never fails -/

namespace MockDataGenerator

/-- `genKill` succeeds whenever the game lasts at least 180 s. -/
theorem genKill_succeeds (tn : String) {dur : ℤ} (hdur : 180 ≤ dur) (k : ℕ) :
    GSucc (genKill tn dur k) := by
  unfold genKill
  refine gsucc_bind (gsucc_randint hdur) (fun ts _ _ _ _ => ?_)
  refine gsucc_bind (gsucc_randint (by norm_num [LOL_MAP_SIZE]))
    (fun x _ _ _ _ => ?_)
  refine gsucc_bind (gsucc_randint (by norm_num [LOL_MAP_SIZE]))
    (fun y _ _ _ _ => ?_)
  exact gsucc_pure _

/-- `genDragon` succeeds. -/
theorem genDragon_succeeds (tn : String) (won : Bool) (dur spawn : ℤ) :
    GSucc (genDragon tn won dur spawn) := by
  unfold genDragon
  by_cases hlt : spawn < dur
  · rw [if_pos hlt]
    refine gsucc_bind gsucc_randomFloat (fun gate _ _ _ _ => ?_)
    by_cases hg : gate < mkRat 8 10
    · rw [if_pos hg]
      refine gsucc_bind gsucc_randomFloat (fun r _ _ _ _ => ?_)
      refine gsucc_bind (gsucc_randint (by norm_num)) (fun delay _ _ _ _ => ?_)
      refine gsucc_bind (gsucc_randomChoice (by simp)) (fun dt _ _ _ _ => ?_)
      exact gsucc_pure _
    · rw [if_neg hg]
      exact gsucc_pure _
  · rw [if_neg hlt]
    exact gsucc_pure _

/-- `genBaron` succeeds whenever the game lasts at least 1260 s. -/
theorem genBaron_succeeds (tn : String) (won : Bool) {dur : ℤ}
    (hdur : 1260 ≤ dur) (b : ℕ) : GSucc (genBaron tn won dur b) := by
  unfold genBaron
  refine gsucc_bind (gsucc_randint (by omega)) (fun ts _ _ _ _ => ?_)
  refine gsucc_bind gsucc_randomFloat (fun r _ _ _ _ => ?_)
  exact gsucc_pure _

/-- `genHerald` succeeds whenever the game lasts at least 480 s. -/
theorem genHerald_succeeds (tn : String) (won : Bool) {dur : ℤ}
    (hdur : 480 ≤ dur) (hh : ℕ) : GSucc (genHerald tn won dur hh) := by
  unfold genHerald
  refine gsucc_bind (gsucc_randint ?_) (fun ts _ _ _ _ => ?_)
  · exact le_min (by norm_num) hdur
  · refine gsucc_bind gsucc_randomFloat (fun r _ _ _ _ => ?_)
    exact gsucc_pure _

/-- `genGoldUpdate` succeeds. -/
theorem genGoldUpdate_succeeds (won : Bool) (minute : ℤ) :
    GSucc (genGoldUpdate won minute) := by
  unfold genGoldUpdate
  refine gsucc_bind (gsucc_randint (by norm_num)) (fun v _ _ _ _ => ?_)
  exact gsucc_pure _

/-- `genJunglePosition` succeeds whenever the duration is non-negative. -/
theorem genJunglePosition_succeeds {dur : ℤ} (hdur : 0 ≤ dur) (s : ℕ) :
    GSucc (genJunglePosition dur s) := by
  unfold genJunglePosition
  refine gsucc_bind (gsucc_randint hdur) (fun ts _ _ _ _ => ?_)
  refine gsucc_bind gsucc_randomFloat (fun lb _ _ _ _ => ?_)
  by_cases h1 : lb < mkRat 35 100
  · rw [if_pos h1]
    refine gsucc_bind (gsucc_randint (by norm_num)) (fun x _ _ _ _ => ?_)
    refine gsucc_bind (gsucc_randint (by norm_num)) (fun y _ _ _ _ => ?_)
    exact gsucc_pure _
  · rw [if_neg h1]
    by_cases h2 : lb < mkRat 70 100
    · rw [if_pos h2]
      refine gsucc_bind (gsucc_randint (by norm_num)) (fun x _ _ _ _ => ?_)
      refine gsucc_bind (gsucc_randint (by norm_num)) (fun y _ _ _ _ => ?_)
      exact gsucc_pure _
    · rw [if_neg h2]
      refine gsucc_bind (gsucc_randint (by norm_num)) (fun x _ _ _ _ => ?_)
      refine gsucc_bind (gsucc_randint (by norm_num)) (fun y _ _ _ _ => ?_)
      exact gsucc_pure _

/-- Each iteration of the LoL match loop succeeds. -/
theorem genLolMatch_succeeds (tn : String) (now : ℤ) (mid : ℕ) :
    GSucc (genLolMatch tn now mid) := by
  unfold genLolMatch
  refine gsucc_bind gsucc_randomFloat (fun wr _ _ _ _ => ?_)
  refine gsucc_bind (gsucc_randint (by norm_num)) (fun dur g1 i1 j1 hdur => ?_)
  have hdb := randint_ok_bound hdur
  refine gsucc_bind ?_ (fun nk _ _ _ _ => ?_)
  · by_cases hw : wr < mkRat 7 10
    · rw [if_pos hw]; exact gsucc_randint (by norm_num)
    · rw [if_neg hw]; exact gsucc_randint (by norm_num)
  · refine gsucc_bind
      (gsucc_greplicateIdx (genKill_succeeds tn (by omega)) _ _)
      (fun kills _ _ _ _ => ?_)
    refine gsucc_bind
      (gsucc_gfilterMapM _ (fun sp _ => genDragon_succeeds tn _ dur sp))
      (fun dragons _ _ _ _ => ?_)
    refine gsucc_bind ?_ (fun barons _ _ _ _ => ?_)
    · by_cases hc : 1200 < dur
      · rw [if_pos hc]
        refine gsucc_bind (gsucc_randint (by norm_num)) (fun nb _ _ _ _ => ?_)
        exact gsucc_greplicateIdx (genBaron_succeeds tn _ (by omega)) _ _
      · rw [if_neg hc]; exact gsucc_pure _
    · refine gsucc_bind ?_ (fun heralds _ _ _ _ => ?_)
      · by_cases hc : 480 < dur
        · rw [if_pos hc]
          refine gsucc_bind (gsucc_randint (by norm_num)) (fun nh _ _ _ _ => ?_)
          exact gsucc_greplicateIdx (genHerald_succeeds tn _ (by omega)) _ _
        · rw [if_neg hc]; exact gsucc_pure _
      · refine gsucc_bind
          (gsucc_gmapM _ (fun minute _ => genGoldUpdate_succeeds _ minute))
          (fun gold _ _ _ _ => ?_)
        refine gsucc_bind (gsucc_randint (by norm_num)) (fun nps _ _ _ _ => ?_)
        refine gsucc_bind
          (gsucc_greplicateIdx (genJunglePosition_succeeds (by omega)) _ _)
          (fun jps _ _ _ _ => ?_)
        exact gsucc_pure _

/-- Each iteration of the VALORANT round loop succeeds. -/
theorem genValRound_succeeds (tn : String) (trw tot : ℤ) (rn : ℕ) :
    GSucc (genValRound tn trw tot rn) := by
  unfold genValRound
  refine gsucc_bind gsucc_randomFloat (fun rw _ _ _ _ => ?_)
  refine gsucc_bind ?_ (fun loadouts _ _ _ _ => ?_)
  · by_cases hp : rn = 1 ∨ rn = 13
    · rw [if_pos hp]; exact gsucc_pure _
    · rw [if_neg hp]
      refine gsucc_bind (gsucc_randint (by norm_num)) (fun e1 _ _ _ _ => ?_)
      refine gsucc_bind (gsucc_randint (by norm_num)) (fun e2 _ _ _ _ => ?_)
      refine gsucc_bind (gsucc_randint (by norm_num)) (fun e3 _ _ _ _ => ?_)
      refine gsucc_bind (gsucc_randomChoice (by simp)) (fun tl _ _ _ _ => ?_)
      refine gsucc_bind (gsucc_randint (by norm_num)) (fun f1 _ _ _ _ => ?_)
      refine gsucc_bind (gsucc_randint (by norm_num)) (fun f2 _ _ _ _ => ?_)
      refine gsucc_bind (gsucc_randint (by norm_num)) (fun f3 _ _ _ _ => ?_)
      refine gsucc_bind (gsucc_randomChoice (by simp)) (fun el _ _ _ _ => ?_)
      exact gsucc_pure _
  · refine gsucc_bind gsucc_randomFloat (fun ps _ _ _ _ => ?_)
    refine gsucc_bind ?_ (fun site _ _ _ _ => ?_)
    · by_cases hp : ps < mkRat 85 100
      · rw [if_pos hp]
        refine gsucc_bind (gsucc_randomChoice (by simp)) (fun s _ _ _ _ => ?_)
        exact gsucc_pure _
      · rw [if_neg hp]; exact gsucc_pure _
    · refine gsucc_bind ?_ (fun coords _ _ _ _ => ?_)
      · by_cases hp : ps < mkRat 85 100
        · rw [if_pos hp]
          by_cases hA : site = some "A"
          · rw [if_pos hA]
            refine gsucc_bind (gsucc_randint (by norm_num))
              (fun cx _ _ _ _ => ?_)
            refine gsucc_bind (gsucc_randint (by norm_num))
              (fun cy _ _ _ _ => ?_)
            exact gsucc_pure _
          · rw [if_neg hA]
            by_cases hB : site = some "B"
            · rw [if_pos hB]
              refine gsucc_bind (gsucc_randint (by norm_num))
                (fun cx _ _ _ _ => ?_)
              refine gsucc_bind (gsucc_randint (by norm_num))
                (fun cy _ _ _ _ => ?_)
              exact gsucc_pure _
            · rw [if_neg hB]
              refine gsucc_bind (gsucc_randint (by norm_num))
                (fun cx _ _ _ _ => ?_)
              refine gsucc_bind (gsucc_randint (by norm_num))
                (fun cy _ _ _ _ => ?_)
              exact gsucc_pure _
        · rw [if_neg hp]; exact gsucc_pure _
      · refine gsucc_bind (gsucc_randomChoice (by simp)) (fun fb _ _ _ _ => ?_)
        refine gsucc_bind (gsucc_randint (by norm_num)) (fun fx _ _ _ _ => ?_)
        refine gsucc_bind (gsucc_randint (by norm_num)) (fun fy _ _ _ _ => ?_)
        refine gsucc_bind (gsucc_randint (by norm_num)) (fun rd _ _ _ _ => ?_)
        exact gsucc_pure _

/-- Each iteration of the VALORANT match loop succeeds. -/
theorem genValMatch_succeeds (tn : String) (now : ℤ) (mid : ℕ) :
    GSucc (genValMatch tn now mid) := by
  unfold genValMatch
  refine gsucc_bind gsucc_randomFloat (fun wr _ _ _ _ => ?_)
  refine gsucc_bind ?_ (fun trw _ _ _ _ => ?_)
  · by_cases hw : wr < mkRat 7 10
    · rw [if_pos hw]; exact gsucc_randint (by norm_num)
    · rw [if_neg hw]; exact gsucc_randint (by norm_num)
  · refine gsucc_bind ?_ (fun erw _ _ _ _ => ?_)
    · by_cases hl : trw < 13
      · rw [if_pos hl]; exact gsucc_pure _
      · rw [if_neg hl]; exact gsucc_randint (by norm_num)
    · refine gsucc_bind
        (gsucc_greplicateIdx (genValRound_succeeds tn trw (trw + erw)) _ _)
        (fun rounds _ _ _ _ => ?_)
      refine gsucc_bind (gsucc_randomChoice (by simp)) (fun mp _ _ _ _ => ?_)
      exact gsucc_pure _

/-- The LoL generator succeeds on every input and random-source state. -/
theorem generate_lol_succeeds (tn : String) (now n : ℤ) :
    GSucc (generate_lol_match_data tn now n) :=
  gsucc_greplicateIdx (genLolMatch_succeeds tn now) n.toNat 1

/-- The VALORANT generator succeeds on every input and random-source state. -/
theorem generate_valorant_succeeds (tn : String) (now n : ℤ) :
    GSucc (generate_valorant_match_data tn now n) :=
  gsucc_greplicateIdx (genValMatch_succeeds tn now) n.toNat 1

end MockDataGenerator

/-! ## Helper lemmas: analyzer methods never touch their state -/

/-- `calculate_jungle_proximity` leaves the analyzer state unchanged. -/
theorem jungle_state (a : LolAnalyzer) :
    (a.calculate_jungle_proximity).2 = a := by
  simp only [LolAnalyzer.calculate_jungle_proximity]
  split <;> rfl

/-- `calculate_objective_control` leaves the analyzer state unchanged. -/
theorem objective_state (a : LolAnalyzer) :
    (a.calculate_objective_control).2 = a := rfl

/-- `calculate_gold_efficiency` leaves the analyzer state unchanged. -/
theorem gold_state (a : LolAnalyzer) :
    (a.calculate_gold_efficiency).2 = a := rfl

/-- `LolAnalyzer.get_complete_analysis` leaves the analyzer state
unchanged. -/
theorem lol_complete_state (a : LolAnalyzer) :
    (a.get_complete_analysis).2 = a := by
  show (a.calculate_jungle_proximity.2.calculate_objective_control.2.calculate_gold_efficiency).2 = a
  rw [gold_state, objective_state, jungle_state]

/-- `calculate_opening_duel_winrate` leaves the analyzer state unchanged. -/
theorem opening_state (a : ValorantAnalyzer) :
    (a.calculate_opening_duel_winrate).2 = a := rfl

/-- `calculate_site_bias` leaves the analyzer state unchanged. -/
theorem site_state (a : ValorantAnalyzer) :
    (a.calculate_site_bias).2 = a := by
  simp only [ValorantAnalyzer.calculate_site_bias]
  split <;> rfl

/-- `calculate_eco_conversion` leaves the analyzer state unchanged. -/
theorem eco_state (a : ValorantAnalyzer) :
    (a.calculate_eco_conversion).2 = a := rfl

/-- `ValorantAnalyzer.get_complete_analysis` leaves the analyzer state
unchanged. -/
theorem val_complete_state (a : ValorantAnalyzer) :
    (a.get_complete_analysis).2 = a := by
  simp only [ValorantAnalyzer.get_complete_analysis]
  split
  · simp [site_state, opening_state]
  · simp [eco_state, site_state, opening_state]

/-! ## Claim theorems -/

/-- C1: the claim that an empty match list makes every public computation of
both aggregators return zeroed metrics without raising is violated by the
code: the constructor does set the `"Unknown"` sentinel, but
`ValorantAnalyzer.calculate_site_bias` then raises `KeyError
"site_Unknown_percent"` while building its insight string (modelled as the
`none` result), and `get_complete_analysis` propagates it.  This theorem
evaluates the embedded code at the failing input (the empty match list). -/
theorem C1_empty_matches_site_bias_raises :
    (ValorantAnalyzer.init []).team_name = "Unknown" ∧
    ((ValorantAnalyzer.init []).calculate_site_bias).1 = none ∧
    ((ValorantAnalyzer.init []).get_complete_analysis).1 = none :=
  ⟨rfl, rfl, rfl⟩

/-- C8: both aggregators are pure functions of their stored match list: no
metric method or complete analysis changes the analyzer state (in
particular the stored match list), running the complete analysis twice
yields identical output, and any metric method returns the same result
after any other metric method has run (order independence). -/
theorem C8_analyzers_pure_and_idempotent :
    (∀ a : LolAnalyzer,
      (a.calculate_jungle_proximity).2 = a ∧
      (a.calculate_objective_control).2 = a ∧
      (a.calculate_gold_efficiency).2 = a ∧
      (a.get_complete_analysis).2 = a ∧
      ((a.get_complete_analysis).2.get_complete_analysis).1
        = (a.get_complete_analysis).1 ∧
      ((a.calculate_jungle_proximity).2.calculate_objective_control).1
        = (a.calculate_objective_control).1 ∧
      ((a.calculate_jungle_proximity).2.calculate_gold_efficiency).1
        = (a.calculate_gold_efficiency).1 ∧
      ((a.calculate_objective_control).2.calculate_jungle_proximity).1
        = (a.calculate_jungle_proximity).1 ∧
      ((a.calculate_objective_control).2.calculate_gold_efficiency).1
        = (a.calculate_gold_efficiency).1 ∧
      ((a.calculate_gold_efficiency).2.calculate_jungle_proximity).1
        = (a.calculate_jungle_proximity).1 ∧
      ((a.calculate_gold_efficiency).2.calculate_objective_control).1
        = (a.calculate_objective_control).1) ∧
    (∀ a : ValorantAnalyzer,
      (a.calculate_opening_duel_winrate).2 = a ∧
      (a.calculate_site_bias).2 = a ∧
      (a.calculate_eco_conversion).2 = a ∧
      (a.get_complete_analysis).2 = a ∧
      ((a.get_complete_analysis).2.get_complete_analysis).1
        = (a.get_complete_analysis).1 ∧
      ((a.calculate_opening_duel_winrate).2.calculate_site_bias).1
        = (a.calculate_site_bias).1 ∧
      ((a.calculate_opening_duel_winrate).2.calculate_eco_conversion).1
        = (a.calculate_eco_conversion).1 ∧
      ((a.calculate_site_bias).2.calculate_opening_duel_winrate).1
        = (a.calculate_opening_duel_winrate).1 ∧
      ((a.calculate_site_bias).2.calculate_eco_conversion).1
        = (a.calculate_eco_conversion).1 ∧
      ((a.calculate_eco_conversion).2.calculate_opening_duel_winrate).1
        = (a.calculate_opening_duel_winrate).1 ∧
      ((a.calculate_eco_conversion).2.calculate_site_bias).1
        = (a.calculate_site_bias).1) := by
  constructor
  · intro a
    refine ⟨jungle_state a, objective_state a, gold_state a,
      lol_complete_state a, ?_, ?_, ?_, ?_, ?_, ?_, ?_⟩ <;>
      simp only [lol_complete_state, jungle_state, objective_state, gold_state]
  · intro a
    refine ⟨opening_state a, site_state a, eco_state a,
      val_complete_state a, ?_, ?_, ?_, ?_, ?_, ?_, ?_⟩ <;>
      simp only [val_complete_state, opening_state, site_state, eco_state]

/-- C9: for every team name, clock value, match count and state of the
random source, both generators return without raising, and the returned
list has exactly `num_matches.toNat` entries — `num_matches` for a positive
count and the empty list for a zero or negative count. -/
theorem C9_generator_count_and_no_failure :
    ∀ (g : ℕ → ℕ) (i : ℕ) (team_name : String) (now num_matches : ℤ),
    (∃ ms j, MockDataGenerator.generate_lol_match_data
        team_name now num_matches g i = .ok (ms, j)
      ∧ ms.length = num_matches.toNat) ∧
    (∃ ms j, MockDataGenerator.generate_valorant_match_data
        team_name now num_matches g i = .ok (ms, j)
      ∧ ms.length = num_matches.toNat) := by
  intro g i tn now n
  constructor
  · obtain ⟨ms, j, h⟩ := MockDataGenerator.generate_lol_succeeds tn now n g i
    exact ⟨ms, j, h,
      greplicateIdx_ok_length (MockDataGenerator.genLolMatch tn now)
        n.toNat 1 g i ms j h⟩
  · obtain ⟨ms, j, h⟩ :=
      MockDataGenerator.generate_valorant_succeeds tn now n g i
    exact ⟨ms, j, h,
      greplicateIdx_ok_length (MockDataGenerator.genValMatch tn now)
        n.toNat 1 g i ms j h⟩

/-- C2 (amended): every match list the LoL generator can emit — for any
team name, clock value, match count and state of the random source —
satisfies: kill, baron, herald, gold-snapshot and jungle-position
timestamps lie in `[0, duration]`, and dragon-capture timestamps lie in
`[0, duration + 120)`.  (The claim's original interval `[0, duration]` for
dragons is refuted by `C2_dragon_after_game_end_counterexample`: a dragon
spawning just before game end may be captured up to 120 s later.) -/
theorem C2_generated_event_timestamp_bounds
    (g : ℕ → ℕ) (i : ℕ) (team_name : String) (now num_matches : ℤ)
    (ms : List LolMatch) (j : ℕ)
    (h : MockDataGenerator.generate_lol_match_data
      team_name now num_matches g i = .ok (ms, j)) :
    lolEventTimestampsOk ms = true := by
  unfold lolEventTimestampsOk
  rw [List.all_eq_true]
  exact greplicateIdx_ok_mem (MockDataGenerator.genLolMatch team_name now)
    (fun m => lolMatchEventsOk m = true)
    (fun k g2 i2 a j2 hh =>
      MockDataGenerator.genLolMatch_eventsOk team_name now k g2 i2 a j2 hh)
    num_matches.toNat 1 g i ms j h

set_option maxRecDepth 10000 in
/-- Witness for C2 on a closed instance: the amended bound holds of the
concrete match list generated from the all-zeros random source. -/
theorem C2_generated_event_timestamp_bounds_witness :
    lolEventTimestampsOk c2WitnessRun.1 = true :=
  C2_generated_event_timestamp_bounds (fun _ => 0) 0 "Cloud9" 0 1
    c2WitnessRun.1 c2WitnessRun.2 (by rfl)

set_option maxRecDepth 10000 in
/-- Counterexample to C2 as stated: on the explicit random-source state
`c2CexOracle` the generator emits a match of duration 1501 s whose only
dragon capture is timestamped 1620 s — the 1500 s spawn passes the
`spawn_time < game_duration` test and then receives the maximal 120 s
capture delay, so its timestamp exceeds the match duration. -/
theorem C2_dragon_after_game_end_counterexample :
    c2CexHasLateDragon = true := by decide

/-- Rounding zero to one decimal gives zero. -/
theorem pyRound1_zero : pyRound1 0 = 0 := by
  have h := pyRound1_intCast 0
  simpa using h

/-- Rounding zero to zero decimals gives zero. -/
theorem pyRound0_zero : pyRound0 0 = 0 := by
  have h := pyRound0_intCast 0
  simpa using h

/-- Rounding a value equal to an integer is that integer. -/
theorem pyRound1_eq_intCast {q : ℚ} {n : ℤ} (h : q = (n : ℚ)) :
    pyRound1 q = (n : ℚ) := by rw [h, pyRound1_intCast]

/-- Rounding a value equal to an integer is that integer. -/
theorem pyRound0_eq_intCast {q : ℚ} {n : ℤ} (h : q = (n : ℚ)) :
    pyRound0 q = (n : ℚ) := by rw [h, pyRound0_intCast]

/-- The opening-duel loop from the zero accumulator, in closed form. -/
theorem fbStep_foldl_zero (tn : String) (rs : List ValRound) :
    rs.foldl (ValorantAnalyzer.fbStep tn) ⟨0, 0, 0, 0⟩ =
      { total_rounds := rs.length
        team_first_bloods := rs.countP (fun r => decide (r.first_blood_team = tn))
        rounds_won_with_fb := rs.countP (fun r =>
          decide (r.first_blood_team = tn) && decide (r.winner = tn))
        rounds_won_without_fb := rs.countP (fun r =>
          !decide (r.first_blood_team = tn) && decide (r.winner = tn)) } := by
  rw [fbStep_foldl]
  simp [ValorantAnalyzer.FbAcc.mk.injEq]

/-- The economy loop from the zero accumulator, in closed form. -/
theorem ecoStep_foldl_zero (tn : String) (rs : List ValRound) :
    rs.foldl (ValorantAnalyzer.ecoStep tn) ⟨0, 0, 0, 0, 0, 0⟩ =
      { eco_rounds := rs.countP specEcoPred
        eco_wins := rs.countP (fun r => specEcoPred r && decide (r.winner = tn))
        force_rounds := rs.countP specForcePred
        force_wins := rs.countP (fun r => specForcePred r && decide (r.winner = tn))
        full_buy_rounds := rs.countP specFullBuyPred
        full_buy_wins := rs.countP (fun r =>
          specFullBuyPred r && decide (r.winner = tn)) } := by
  rw [ecoStep_foldl]
  simp [ValorantAnalyzer.EcoAcc.mk.injEq]

/-- C4: the reported LoL first-dragon rate is, for every match list, the
number of matches whose chronologically-first dragon is credited to the
analyzed team over the number of matches with any dragon, times 100 (0
when no match has a dragon), rounded to one decimal; and the 5-match
scenario with the first dragon taken in 3 of 5 dragon-bearing matches
reports exactly 60.0. -/
theorem C4_first_dragon_rate_eq_spec :
    (∀ a : LolAnalyzer,
      (a.calculate_objective_control).1.first_dragon_rate
        = specFirstDragonRate a.«matches» a.team_name) ∧
    ((LolAnalyzer.init c4Matches).calculate_objective_control).1.first_dragon_rate
      = 60 := by
  have huniv : ∀ a : LolAnalyzer,
      (a.calculate_objective_control).1.first_dragon_rate
        = specFirstDragonRate a.«matches» a.team_name := by
    intro a
    simp only [LolAnalyzer.calculate_objective_control, objStep_foldl,
      specFirstDragonRate]
    simp [apply_ite pyRound1, pyRound1_zero]
  refine ⟨huniv, ?_⟩
  rw [huniv]
  show specFirstDragonRate c4Matches "T" = 60
  have hne : (("E" : String) = "T") = False :=
    eq_false (by decide)
  norm_num [specFirstDragonRate, c4Matches, mkDragonLolMatch, hasDragon,
    firstDragonToTeam, List.countP_cons, hne]
  rw [pyRound1_eq_intCast (n := 60) (by norm_num)]
  norm_num

/-- C5: the reported VALORANT first-blood rate and conversion are, for
every match list, the spec's round-count formulas (conversion 0 when the
team has no first bloods), rounded to one decimal; and the 20-round
scenario with 10 team first bloods of which 8 won reports exactly 50.0 and
80.0. -/
theorem C5_opening_duel_rates_eq_spec :
    (∀ a : ValorantAnalyzer,
      (a.calculate_opening_duel_winrate).1.first_blood_rate
        = specFirstBloodRate a.«matches» a.team_name ∧
      (a.calculate_opening_duel_winrate).1.first_blood_conversion
        = specFirstBloodConversion a.«matches» a.team_name) ∧
    ((ValorantAnalyzer.init [c5Match]).calculate_opening_duel_winrate).1.first_blood_rate
      = 50 ∧
    ((ValorantAnalyzer.init [c5Match]).calculate_opening_duel_winrate).1.first_blood_conversion
      = 80 := by
  have huniv : ∀ a : ValorantAnalyzer,
      (a.calculate_opening_duel_winrate).1.first_blood_rate
        = specFirstBloodRate a.«matches» a.team_name ∧
      (a.calculate_opening_duel_winrate).1.first_blood_conversion
        = specFirstBloodConversion a.«matches» a.team_name := by
    intro a
    simp only [ValorantAnalyzer.calculate_opening_duel_winrate]
    rw [foldl_flatMap_eq (ValorantAnalyzer.fbStep a.team_name)
      (fun (m : ValMatch) => m.rounds), fbStep_foldl_zero]
    simp only [specFirstBloodRate, specFirstBloodConversion, allValRounds]
    constructor <;> simp [apply_ite pyRound1, pyRound1_zero]
  refine ⟨huniv, ?_, ?_⟩
  · rw [(huniv _).1]
    show specFirstBloodRate [c5Match] "T" = 50
    have hne : (("Enemy" : String) = "T") = False := eq_false (by decide)
    norm_num [specFirstBloodRate, allValRounds, c5Match, mkSimpleValRound,
      List.countP_append, List.countP_replicate, hne]
    rw [pyRound1_eq_intCast (n := 50) (by norm_num)]
    norm_num
  · rw [(huniv _).2]
    show specFirstBloodConversion [c5Match] "T" = 80
    have hne : (("Enemy" : String) = "T") = False := eq_false (by decide)
    norm_num [specFirstBloodConversion, allValRounds, c5Match,
      mkSimpleValRound, List.countP_append, List.countP_replicate, hne]
    rw [pyRound1_eq_intCast (n := 80) (by norm_num)]
    norm_num

/-- C6: for every match list, the three economy buckets are the spec's
loadout classification of the rounds (based only on the analyzed team's
loadout), they partition the rounds exactly — eco + force + full-buy round
counts sum to the total round count, which is also what the opening-duel
method reports as `total_rounds` — and each bucket's reported win rate is
bucket wins / bucket rounds × 100 (0 for an empty bucket), rounded to one
decimal. -/
theorem C6_economy_buckets_partition :
    ∀ a : ValorantAnalyzer,
      (a.calculate_eco_conversion).1.eco_rounds_played
        = (allValRounds a.«matches»).countP specEcoPred ∧
      (a.calculate_eco_conversion).1.force_rounds_played
        = (allValRounds a.«matches»).countP specForcePred ∧
      (a.calculate_eco_conversion).1.full_buy_rounds_played
        = (allValRounds a.«matches»).countP specFullBuyPred ∧
      (a.calculate_eco_conversion).1.eco_rounds_played
          + (a.calculate_eco_conversion).1.force_rounds_played
          + (a.calculate_eco_conversion).1.full_buy_rounds_played
        = (allValRounds a.«matches»).length ∧
      (a.calculate_opening_duel_winrate).1.total_rounds
        = (allValRounds a.«matches»).length ∧
      (a.calculate_eco_conversion).1.eco_conversion_rate
        = specBucketWinrate (allValRounds a.«matches») specEcoPred a.team_name ∧
      (a.calculate_eco_conversion).1.force_buy_winrate
        = specBucketWinrate (allValRounds a.«matches») specForcePred a.team_name ∧
      (a.calculate_eco_conversion).1.full_buy_winrate
        = specBucketWinrate (allValRounds a.«matches») specFullBuyPred a.team_name := by
  intro a
  have hpart : (allValRounds a.«matches»).countP specEcoPred
      + (allValRounds a.«matches»).countP specForcePred
      + (allValRounds a.«matches»).countP specFullBuyPred
      = (allValRounds a.«matches»).length := by
    refine countP_three_partition _ _ _ _ (fun r _ => ?_)
    by_cases h1 : r.team_loadout_value < 2000
    · have hf : specForcePred r = false := by simp [specForcePred]; omega
      have hb : specFullBuyPred r = false := by simp [specFullBuyPred]; omega
      simp [specEcoPred, h1, hf, hb]
    · by_cases h2 : r.team_loadout_value < 3500
      · have hf : specForcePred r = true := by simp [specForcePred]; omega
        have hb : specFullBuyPred r = false := by simp [specFullBuyPred]; omega
        simp [specEcoPred, h1, hf, hb]
      · have hf : specForcePred r = false := by simp [specForcePred]; omega
        have hb : specFullBuyPred r = true := by simp [specFullBuyPred]; omega
        simp [specEcoPred, h1, hf, hb]
  have hcounts :
      (a.calculate_eco_conversion).1.eco_rounds_played
        = (allValRounds a.«matches»).countP specEcoPred ∧
      (a.calculate_eco_conversion).1.force_rounds_played
        = (allValRounds a.«matches»).countP specForcePred ∧
      (a.calculate_eco_conversion).1.full_buy_rounds_played
        = (allValRounds a.«matches»).countP specFullBuyPred := by
    simp only [ValorantAnalyzer.calculate_eco_conversion]
    rw [foldl_flatMap_eq (ValorantAnalyzer.ecoStep a.team_name)
      (fun (m : ValMatch) => m.rounds), ecoStep_foldl_zero]
    simp [allValRounds]
  have hrates :
      (a.calculate_eco_conversion).1.eco_conversion_rate
        = specBucketWinrate (allValRounds a.«matches») specEcoPred a.team_name ∧
      (a.calculate_eco_conversion).1.force_buy_winrate
        = specBucketWinrate (allValRounds a.«matches») specForcePred a.team_name ∧
      (a.calculate_eco_conversion).1.full_buy_winrate
        = specBucketWinrate (allValRounds a.«matches») specFullBuyPred a.team_name := by
    simp only [ValorantAnalyzer.calculate_eco_conversion]
    rw [foldl_flatMap_eq (ValorantAnalyzer.ecoStep a.team_name)
      (fun (m : ValMatch) => m.rounds), ecoStep_foldl_zero]
    simp only [specBucketWinrate, allValRounds]
    refine ⟨?_, ?_, ?_⟩ <;> simp [apply_ite pyRound1, pyRound1_zero]
  have htot : (a.calculate_opening_duel_winrate).1.total_rounds
      = (allValRounds a.«matches»).length := by
    simp only [ValorantAnalyzer.calculate_opening_duel_winrate]
    rw [foldl_flatMap_eq (ValorantAnalyzer.fbStep a.team_name)
      (fun (m : ValMatch) => m.rounds), fbStep_foldl_zero]
    simp [allValRounds]
  refine ⟨hcounts.1, hcounts.2.1, hcounts.2.2, ?_, htot, hrates.1,
    hrates.2.1, hrates.2.2⟩
  rw [hcounts.1, hcounts.2.1, hcounts.2.2]
  exact hpart

/-- C3 (amended): for every match list, the reported gold "growth rate" is
the two-point finite difference between the 15- and 10-minute bucket
averages divided by 5 and additionally multiplied by 60 — i.e.
`round0(((avg15 - avg10) / 5) * 60)` — and 0 whenever either bucket
average is 0.  (The claim's plain `(avg15 - avg10) / 5` is refuted by
`C3_growth_rate_claim_counterexample`: the source multiplies by a further
factor of 60 at line 173.) -/
theorem C3_gold_growth_rate_eq_code_formula :
    ∀ a : LolAnalyzer,
      (a.calculate_gold_efficiency).1.gold_growth_rate
        = codeGoldGrowthRate a.«matches» := by
  intro a
  simp only [LolAnalyzer.calculate_gold_efficiency]
  rw [foldl_flatMap_eq LolAnalyzer.goldStep
    (fun (m : LolMatch) => m.gold_updates), goldStep_foldl]
  simp only [codeGoldGrowthRate, specAvgGold10, specAvgGold15, specGoldAt10,
    specGoldAt15, List.nil_append]
  simp [apply_ite pyRound0, pyRound0_zero]

/-- Counterexample to C3 as stated: on a concrete match whose 10-minute
bucket average is 100 and 15-minute bucket average is 200, the code
reports `round0(((200 - 100) / 5) * 60) = 1200`, not the claim's
`round0((200 - 100) / 5) = 20`. -/
theorem C3_growth_rate_claim_counterexample :
    ((LolAnalyzer.init [goldLolMatch]).calculate_gold_efficiency).1.gold_growth_rate
      ≠ claimGoldGrowthRate [goldLolMatch] := by
  have hL : ((LolAnalyzer.init [goldLolMatch]).calculate_gold_efficiency).1.gold_growth_rate
      = 1200 := by
    norm_num [LolAnalyzer.calculate_gold_efficiency, LolAnalyzer.init,
      LolAnalyzer.goldStep, goldLolMatch, npMean]
    rw [pyRound0_eq_intCast (n := 1200) (by norm_num)]
    norm_num
  have hR : claimGoldGrowthRate [goldLolMatch] = 20 := by
    norm_num [claimGoldGrowthRate, specAvgGold10, specAvgGold15, specGoldAt10,
      specGoldAt15, goldLolMatch, npMean, List.filter_cons]
    rw [pyRound0_eq_intCast (n := 20) (by norm_num)]
    norm_num
  rw [hL, hR]
  norm_num

/-- C7: for every match list whose jungle-position samples all carry a lane
label in the closed set Top/Mid/Bot (the data model's invariant, which the
generator guarantees), the three reported lane percentages — each rounded
to one decimal — sum to 100 up to the rounding tolerance 3·(1/20) whenever
at least one sample exists, and all three are 0 when no samples exist. -/
theorem C7_lane_percentages_sum (a : LolAnalyzer)
    (hl : ∀ p ∈ allJunglePositions a.«matches»,
      p.lane = "Top" ∨ p.lane = "Mid" ∨ p.lane = "Bot") :
    (allJunglePositions a.«matches» ≠ [] →
      |(a.calculate_jungle_proximity).1.top_lane_percent
        + (a.calculate_jungle_proximity).1.mid_lane_percent
        + (a.calculate_jungle_proximity).1.bot_lane_percent - 100|
        ≤ 3 / 20) ∧
    (allJunglePositions a.«matches» = [] →
      (a.calculate_jungle_proximity).1.top_lane_percent = 0 ∧
      (a.calculate_jungle_proximity).1.mid_lane_percent = 0 ∧
      (a.calculate_jungle_proximity).1.bot_lane_percent = 0) := by
  have hall : a.«matches».foldl (fun acc m => acc ++ m.jungle_positions) []
      = allJunglePositions a.«matches» := by
    rw [foldl_append_eq_flatMap]
    simp [allJunglePositions]
  constructor
  · intro hne
    have hcond : ¬((allJunglePositions a.«matches»).isEmpty = true) := by
      simp [List.isEmpty_iff, hne]
    simp only [LolAnalyzer.calculate_jungle_proximity, hall, if_neg hcond]
    set L := allJunglePositions a.«matches» with hLdef
    have hTop : cget (counterOf (L.map (fun p => p.lane))) "Top"
        = L.countP (fun p => decide (p.lane = "Top")) := by
      rw [cget_counterOf, List.countP_map]
      rfl
    have hMid : cget (counterOf (L.map (fun p => p.lane))) "Mid"
        = L.countP (fun p => decide (p.lane = "Mid")) := by
      rw [cget_counterOf, List.countP_map]
      rfl
    have hBot : cget (counterOf (L.map (fun p => p.lane))) "Bot"
        = L.countP (fun p => decide (p.lane = "Bot")) := by
      rw [cget_counterOf, List.countP_map]
      rfl
    have hsum : L.countP (fun p => decide (p.lane = "Top"))
        + L.countP (fun p => decide (p.lane = "Mid"))
        + L.countP (fun p => decide (p.lane = "Bot")) = L.length := by
      refine countP_three_partition _ _ _ L (fun p hp => ?_)
      rcases hl p hp with h | h | h <;> simp [h]
    rw [hTop, hMid, hBot]
    have hlen : (0 : ℚ) < (L.length : ℚ) := by
      have : L ≠ [] := hne
      have hpos : 0 < L.length := List.length_pos.2 this
      exact_mod_cast hpos
    set x : ℚ := (L.countP (fun p => decide (p.lane = "Top")) : ℚ)
      / (L.length : ℚ) * 100 with hxdef
    set y : ℚ := (L.countP (fun p => decide (p.lane = "Mid")) : ℚ)
      / (L.length : ℚ) * 100 with hydef
    set z : ℚ := (L.countP (fun p => decide (p.lane = "Bot")) : ℚ)
      / (L.length : ℚ) * 100 with hzdef
    have hcast : (L.countP (fun p => decide (p.lane = "Top")) : ℚ)
        + (L.countP (fun p => decide (p.lane = "Mid")) : ℚ)
        + (L.countP (fun p => decide (p.lane = "Bot")) : ℚ)
        = (L.length : ℚ) := by
      exact_mod_cast congrArg (fun n : ℕ => (n : ℚ)) hsum
    have hxyz : x + y + z = 100 := by
      rw [hxdef, hydef, hzdef]
      field_simp
      linarith
    have h1 := pyRound1_abs_le x
    have h2 := pyRound1_abs_le y
    have h3 := pyRound1_abs_le z
    have hrw : pyRound1 x + pyRound1 y + pyRound1 z - 100
        = (pyRound1 x - x) + ((pyRound1 y - y) + (pyRound1 z - z)) := by
      rw [← hxyz]
      ring
    have habs1 := abs_add (pyRound1 x - x) ((pyRound1 y - y) + (pyRound1 z - z))
    have habs2 := abs_add (pyRound1 y - y) (pyRound1 z - z)
    show |pyRound1 x + pyRound1 y + pyRound1 z - 100| ≤ 3 / 20
    rw [hrw]
    calc |(pyRound1 x - x) + ((pyRound1 y - y) + (pyRound1 z - z))|
        ≤ |pyRound1 x - x| + |(pyRound1 y - y) + (pyRound1 z - z)| := habs1
      _ ≤ |pyRound1 x - x| + (|pyRound1 y - y| + |pyRound1 z - z|) := by
          linarith
      _ ≤ 3 / 20 := by linarith
  · intro he
    have hcond : (allJunglePositions a.«matches»).isEmpty = true := by
      simp [List.isEmpty_iff, he]
    simp only [LolAnalyzer.calculate_jungle_proximity, hall, if_pos hcond]
    exact ⟨trivial, trivial, trivial⟩

/-- Witness for C7 on closed instances: the tolerance bound holds of a
concrete 3-sample match list (two Top, one Mid), and the zero case holds
of the empty match list. -/
theorem C7_lane_percentages_sum_witness :
    |((LolAnalyzer.init [jungleLolMatch]).calculate_jungle_proximity).1.top_lane_percent
      + ((LolAnalyzer.init [jungleLolMatch]).calculate_jungle_proximity).1.mid_lane_percent
      + ((LolAnalyzer.init [jungleLolMatch]).calculate_jungle_proximity).1.bot_lane_percent
      - 100| ≤ 3 / 20 ∧
    (((LolAnalyzer.init []).calculate_jungle_proximity).1.top_lane_percent = 0 ∧
     ((LolAnalyzer.init []).calculate_jungle_proximity).1.mid_lane_percent = 0 ∧
     ((LolAnalyzer.init []).calculate_jungle_proximity).1.bot_lane_percent = 0) :=
  ⟨(C7_lane_percentages_sum (LolAnalyzer.init [jungleLolMatch])
      (by decide)).1 (by decide),
   (C7_lane_percentages_sum (LolAnalyzer.init []) (by decide)).2 rfl⟩

/-- C10: when a match list holds no jungle-position samples,
`calculate_jungle_proximity` returns the empty-shape mapping — the three
zero percentages and a `positions` key holding the empty list, with the
`total_samples`, `heatmap_data` and `insight` keys absent; every non-empty
result carries those three keys and no `positions` key. -/
theorem C10_jungle_proximity_empty_shape :
    ∀ a : LolAnalyzer,
      (allJunglePositions a.«matches» = [] →
        (a.calculate_jungle_proximity).1.top_lane_percent = 0 ∧
        (a.calculate_jungle_proximity).1.mid_lane_percent = 0 ∧
        (a.calculate_jungle_proximity).1.bot_lane_percent = 0 ∧
        (a.calculate_jungle_proximity).1.positions = some [] ∧
        (a.calculate_jungle_proximity).1.total_samples = none ∧
        (a.calculate_jungle_proximity).1.heatmap_data = none ∧
        (a.calculate_jungle_proximity).1.insight = none) ∧
      (allJunglePositions a.«matches» ≠ [] →
        (a.calculate_jungle_proximity).1.positions = none ∧
        (a.calculate_jungle_proximity).1.total_samples
          = some (allJunglePositions a.«matches»).length ∧
        (a.calculate_jungle_proximity).1.heatmap_data.isSome = true ∧
        (a.calculate_jungle_proximity).1.insight.isSome = true) := by
  intro a
  have hall : a.«matches».foldl (fun acc m => acc ++ m.jungle_positions) []
      = allJunglePositions a.«matches» := by
    rw [foldl_append_eq_flatMap]
    simp [allJunglePositions]
  constructor
  · intro he
    have hcond : (allJunglePositions a.«matches»).isEmpty = true := by
      simp [List.isEmpty_iff, he]
    simp only [LolAnalyzer.calculate_jungle_proximity, hall, if_pos hcond]
    exact ⟨trivial, trivial, trivial, trivial, trivial, trivial, trivial⟩
  · intro hne
    have hcond : ¬((allJunglePositions a.«matches»).isEmpty = true) := by
      simp [List.isEmpty_iff, hne]
    simp only [LolAnalyzer.calculate_jungle_proximity, hall, if_neg hcond]
    exact ⟨trivial, trivial, rfl, rfl⟩

/-- Witness for C10 on closed instances: the empty shape at the empty
match list, the full shape at a concrete 3-sample match list. -/
theorem C10_jungle_proximity_empty_shape_witness :
    (((LolAnalyzer.init []).calculate_jungle_proximity).1.top_lane_percent = 0 ∧
     ((LolAnalyzer.init []).calculate_jungle_proximity).1.mid_lane_percent = 0 ∧
     ((LolAnalyzer.init []).calculate_jungle_proximity).1.bot_lane_percent = 0 ∧
     ((LolAnalyzer.init []).calculate_jungle_proximity).1.positions = some [] ∧
     ((LolAnalyzer.init []).calculate_jungle_proximity).1.total_samples = none ∧
     ((LolAnalyzer.init []).calculate_jungle_proximity).1.heatmap_data = none ∧
     ((LolAnalyzer.init []).calculate_jungle_proximity).1.insight = none) ∧
    (((LolAnalyzer.init [jungleLolMatch]).calculate_jungle_proximity).1.positions = none ∧
     ((LolAnalyzer.init [jungleLolMatch]).calculate_jungle_proximity).1.total_samples
       = some (allJunglePositions [jungleLolMatch]).length ∧
     ((LolAnalyzer.init [jungleLolMatch]).calculate_jungle_proximity).1.heatmap_data.isSome = true ∧
     ((LolAnalyzer.init [jungleLolMatch]).calculate_jungle_proximity).1.insight.isSome = true) :=
  ⟨(C10_jungle_proximity_empty_shape (LolAnalyzer.init [])).1 rfl,
   (C10_jungle_proximity_empty_shape (LolAnalyzer.init [jungleLolMatch])).2
     (by decide)⟩
